import Mathlib

/-!
Verification of the SALT nexus automator core against its specification.

This file gives a shallow embedding, in Lean, of the core modules of the
repository (the error collector of src/utils.py, the per-state/per-month
nexus analyzer of src/nexus_analysis.py, and the exposure/VDA calculator
of src/exposure_calc.py), and proves or refutes the specification claims
about them.  Dates are modelled at month granularity by a linear month
index (an integer; twelve consecutive indices form a calendar year, so
the calendar year of index m is m / 12 rounded toward negative infinity,
exactly mirroring period arithmetic in the source).  Currency amounts and
rates are modelled by rational numbers.  Missing values (None/NaN) are
modelled by Option.
-/

namespace SaltNexus

/-! ## Error collector (src/utils.py, class ErrorCollector) -/

/-- Rejected-row record: the serialized row data plus a rejection reason,
mirroring ErrorCollector.add_rejected_row. -/
structure RejectedRow where
  data : List (String × String)
  reason : String
deriving DecidableEq, Repr

/-- State of the ErrorCollector: the rejected-row list, the deduplicated
warning list, and the summary-dict fields the collector itself maintains
(summary keys managed by other components via update_summary are omitted,
matching the claims, which exclude intervening update_summary calls). -/
structure ErrorCollector where
  rejected_rows : List RejectedRow
  warnings : List String
  summary_warnings : List String
  summary_warnings_count : Nat
  summary_rows_rejected : Nat
deriving DecidableEq, Repr

/-- Freshly constructed collector (ErrorCollector.__init__). -/
def initCollector : ErrorCollector :=
  { rejected_rows := []
    warnings := []
    summary_warnings := []
    summary_warnings_count := 0
    summary_rows_rejected := 0 }

/-- ErrorCollector.add_rejected_row: append the entry and increment the
rows_rejected counter. -/
def addRejectedRow (c : ErrorCollector) (row : List (String × String))
    (reason : String) : ErrorCollector :=
  { c with
    rejected_rows := c.rejected_rows ++ [{ data := row, reason := reason }]
    summary_rows_rejected := c.summary_rows_rejected + 1 }

/-- ErrorCollector.add_warning: if the message is already present do
nothing, otherwise append it to both the warning list and the summary
warning list and set the counter to the new length of the warning list. -/
def addWarning (c : ErrorCollector) (msg : String) : ErrorCollector :=
  if msg ∈ c.warnings then c
  else
    { c with
      warnings := c.warnings ++ [msg]
      summary_warnings := c.summary_warnings ++ [msg]
      summary_warnings_count := c.warnings.length + 1 }

/-- Mutating operations a run may perform on the collector (excluding
update_summary, per the claims). -/
inductive CollectorOp where
  | warn (msg : String)
  | reject (row : List (String × String)) (reason : String)
deriving DecidableEq, Repr

/-- Apply one collector operation. -/
def applyOp (c : ErrorCollector) : CollectorOp → ErrorCollector
  | CollectorOp.warn m => addWarning c m
  | CollectorOp.reject r s => addRejectedRow c r s

/-- Run a sequence of operations on a fresh collector. -/
def runOps (ops : List CollectorOp) : ErrorCollector :=
  ops.foldl applyOp initCollector

/-! ## Data model for the nexus analyzer (src/nexus_analysis.py) -/

/-- One standardized sales transaction, at month granularity: the month
index is the number of months since the epoch month (a DatetimeIndex
value falls inside the lookback windows of the source, which are all
unions of whole months, exactly when its month index does). -/
structure Txn where
  state : String
  month : Int
  total_amount : Rat
  invoice_number : Nat
  sales_channel : String
deriving DecidableEq, Repr

/-- Marketplace channel identifiers (the hardcoded list in
NexusAnalyzer.analyze_nexus). -/
def marketplaceChannels : List String := ["AMAZON-FBA", "ETSY", "EBAY"]

/-- Uppercase of a string, mirroring str.upper(): every character is
uppercased (written as a structural map over the character list). -/
def upper (s : String) : String := String.mk (s.data.map Char.toUpper)

/-- Marketplace test: channel uppercased and matched against the list. -/
def isMarketplace (t : Txn) : Bool :=
  marketplaceChannels.contains (upper t.sales_channel)

/-- Numeric-or-not configuration value: num holds a value float()/int()
parses, nonNumeric a value on which the conversion raises. -/
inductive ConfigNum where
  | num (q : Rat)
  | nonNumeric (s : String)
deriving DecidableEq, Repr

/-- Per-state configuration entry (one value of state_config.yaml), with
the dictionary-get defaults of the source folded into field defaults. -/
structure StateParams where
  sales_threshold : Option Rat := none
  transaction_threshold : Option Rat := none
  lookback_rule : String := "rolling_12m"
  lookback_months : Int := 12
  marketplace_threshold_inclusion : Bool := true
  tax_rate : Option ConfigNum := none
  vda_lookback_cap : Option ConfigNum := none
  vda_interest_rate : Option ConfigNum := none
  standard_penalty_rate : Option ConfigNum := none
  vda_penalty_waived : Bool := true
deriving DecidableEq, Repr

/-- Transactions whose month lies in the inclusive window [lo, hi]. -/
def windowTxns (l : List Txn) (lo hi : Int) : List Txn :=
  l.filter (fun t => decide (lo ≤ t.month) && decide (t.month ≤ hi))

/-- Sum of total_amount over a transaction list (window sales). -/
def sumSales (l : List Txn) : Rat :=
  (l.map (fun t => t.total_amount)).sum

/-- Number of distinct invoice numbers among nonzero-amount transactions
(the nunique of invoice_number after filtering total_amount != 0). -/
def countDistinct (l : List Txn) : Nat :=
  (((l.filter (fun t => decide (t.total_amount ≠ 0))).map
    (fun t => t.invoice_number)).dedup).length

/-- Calendar year of a month index (floor division, so twelve consecutive
indices beginning at a multiple of 12 form one calendar year). -/
def yearOf (m : Int) : Int := Int.ediv m 12

/-- NexusAnalyzer._calculate_rolling_aggregates: sales and transaction
bases for one state and one evaluated month under the configured lookback
rule, together with the warning message handed to the error collector in
the unsupported-rule branch (none in every other branch).  Branches in
source order; the empty-data early return precedes the rule dispatch. -/
def calcRollingAggregates (stateTxns : List Txn) (rule : String)
    (lookbackMonths : Int) (p : Int) : (Rat × Nat) × Option String :=
  if stateTxns.isEmpty then ((0, 0), none)
  else if rule = "rolling_12m" then
    let w := windowTxns stateTxns (p - (lookbackMonths - 1)) p
    ((sumSales w, countDistinct w), none)
  else if rule = "calendar_prev_curr" then
    let py := yearOf p - 1
    let wPrev := windowTxns stateTxns (12 * py) (12 * py + 11)
    let wYtd := windowTxns stateTxns (12 * yearOf p) p
    ((max (sumSales wPrev) (sumSales wYtd),
      max (countDistinct wPrev) (countDistinct wYtd)), none)
  else if rule = "calendar_prev" then
    let py := yearOf p - 1
    let w := windowTxns stateTxns (12 * py) (12 * py + 11)
    ((sumSales w, countDistinct w), none)
  else if rule = "rolling_4q" then
    let w := windowTxns stateTxns (p - 11) p
    ((sumSales w, countDistinct w), none)
  else if rule = "accounting_year" then
    let py := yearOf p - 1
    let w := windowTxns stateTxns (12 * py) (12 * py + 11)
    ((sumSales w, countDistinct w), none)
  else if rule = "none" then ((0, 0), none)
  else
    (((0 : Rat), 0),
      some ("Unsupported lookback rule " ++ rule ++
        " found in config. Calculation defaulted to 0."))

/-- One row of the nexus summary DataFrame. -/
structure NexusRow where
  state : String
  month_year : Int
  rolling_sales : Rat
  rolling_transactions : Nat
  sales_threshold : Option Rat
  txn_threshold : Option Rat
  sales_met : Bool
  txn_met : Bool
  nexus_triggered : Bool
  first_trigger_month : Option Int
  lookback_rule : String
deriving DecidableEq, Repr

/-- Rolling basis pair (sales, transactions) for one evaluated month. -/
def aggAt (stateTxns : List Txn) (prm : StateParams) (p : Int) : Rat × Nat :=
  (calcRollingAggregates stateTxns prm.lookback_rule prm.lookback_months p).1

/-- Sales-threshold test for one evaluated month: a null threshold never
triggers. -/
def salesMetAt (stateTxns : List Txn) (prm : StateParams) (p : Int) : Bool :=
  match prm.sales_threshold with
  | some th => decide (th ≤ (aggAt stateTxns prm p).1)
  | none => false

/-- Transaction-threshold test for one evaluated month: a null threshold
never triggers. -/
def txnMetAt (stateTxns : List Txn) (prm : StateParams) (p : Int) : Bool :=
  match prm.transaction_threshold with
  | some th => decide (th ≤ ((aggAt stateTxns prm p).2 : Rat))
  | none => false

/-- Per-month trigger test: sales_met OR txn_met for the evaluated month. -/
def trigAt (stateTxns : List Txn) (prm : StateParams) (p : Int) : Bool :=
  salesMetAt stateTxns prm p || txnMetAt stateTxns prm p

/-- One iteration of the per-month loop body of analyze_nexus: build the
summary row for period p and update the first-trigger accumulator (set on
the first triggered month, left untouched afterwards).  The row stores
the updated accumulator, as the source updates before appending. -/
def nexusStep (stateTxns : List Txn) (prm : StateParams) (st : String)
    (acc : Option Int) (p : Int) : NexusRow × Option Int :=
  let trig := trigAt stateTxns prm p
  let acc' := if trig && acc.isNone then some p else acc
  ({ state := st
     month_year := p
     rolling_sales := (aggAt stateTxns prm p).1
     rolling_transactions := (aggAt stateTxns prm p).2
     sales_threshold := prm.sales_threshold
     txn_threshold := prm.transaction_threshold
     sales_met := salesMetAt stateTxns prm p
     txn_met := txnMetAt stateTxns prm p
     nexus_triggered := trig
     first_trigger_month := acc'
     lookback_rule := prm.lookback_rule }, acc')

/-- The per-month loop of analyze_nexus for one state: evaluate the
periods in order, threading the first-trigger accumulator. -/
def nexusRows (stateTxns : List Txn) (prm : StateParams) (st : String) :
    Option Int → List Int → List NexusRow
  | _, [] => []
  | acc, p :: ps =>
    let s := nexusStep stateTxns prm st acc p
    s.1 :: nexusRows stateTxns prm st s.2 ps

/-- Warning messages the per-month loop hands to the error collector (one
per evaluated period in the unsupported-rule branch; add_warning then
deduplicates them). -/
def stateWarnings (stateTxns : List Txn) (prm : StateParams)
    (periods : List Int) : List String :=
  periods.filterMap (fun p =>
    (calcRollingAggregates stateTxns prm.lookback_rule prm.lookback_months p).2)

/-- Transactions used for one state's threshold calculation: rows of that
state, restricted to non-marketplace channels when the state's config
excludes marketplace sales. -/
def stateFiltered (txns : List Txn) (st : String) (prm : StateParams) :
    List Txn :=
  if prm.marketplace_threshold_inclusion then
    txns.filter (fun t => decide (t.state = st))
  else
    txns.filter (fun t => decide (t.state = st) && !(isMarketplace t))

/-- Per-state body of analyze_nexus: missing config warns and skips; a
state with both thresholds null or rule none is skipped silently; a state
whose threshold data comes up empty is skipped silently; otherwise one
row per analysis period is produced. -/
def analyzeState (txns : List Txn) (cfg : String → Option StateParams)
    (periods : List Int) (st : String) : List NexusRow × List String :=
  match cfg st with
  | none =>
    ([], ["No configuration found for state: " ++ st ++
      ". Skipping analysis for this state."])
  | some prm =>
    if (prm.sales_threshold = none ∧ prm.transaction_threshold = none) ∨
        prm.lookback_rule = "none" then ([], [])
    else
      let stxns := stateFiltered txns st prm
      if stxns.isEmpty then ([], [])
      else (nexusRows stxns prm st none periods, stateWarnings stxns prm periods)

/-- States appearing in the data, deduplicated and sorted alphabetically
(sorted(self.df['state'].unique())). -/
def statesOf (txns : List Txn) : List String :=
  ((txns.map (fun t => t.state)).dedup).insertionSort (· ≤ ·)

/-- Full chronological month grid from the earliest to the latest month
present in the whole input, inclusive (pd.period_range(min, max)). -/
def analysisPeriods (txns : List Txn) : List Int :=
  match (txns.map (fun t => t.month)).min?, (txns.map (fun t => t.month)).max? with
  | some lo, some hi => (List.range (hi + 1 - lo).toNat).map (fun (i : Nat) => lo + (i : Int))
  | _, _ => []

/-- NexusAnalyzer.analyze_nexus: one block of rows per state in sorted
order, with the warning messages handed to the error collector.  The
final dtype fix-ups and column reordering of the source do not change
row contents and are identities here. -/
def analyzeNexus (txns : List Txn) (cfg : String → Option StateParams) :
    List NexusRow × List String :=
  if txns.isEmpty then ([], [])
  else
    let periods := analysisPeriods txns
    let per := (statesOf txns).map (fun st => analyzeState txns cfg periods st)
    ((per.map Prod.fst).flatten, (per.map Prod.snd).flatten)

/-! ## Data model for the exposure calculator (src/exposure_calc.py) -/

/-- One row of the exempt-tagged sales table used by the exposure
calculator (only the columns it reads). -/
structure SalesRow where
  state : String
  month : Int
  total_amount : Rat
  is_exempt : Bool
deriving DecidableEq, Repr

/-- One row of the exposure result DataFrame, with the eight VDA-related
columns always present (the source zero-fills missing ones at the end). -/
structure ExposureRow where
  state : String
  month_year : Int
  taxable_sales : Rat
  tax_rate : Rat
  estimated_tax : Rat
  full_interest : Rat
  full_penalty : Rat
  full_liability : Rat
  vda_tax : Rat
  vda_interest : Rat
  vda_penalty : Rat
  vda_liability : Rat
  estimated_vda_savings : Rat
deriving DecidableEq, Repr

/-- ExposureCalculator._calculate_interest: simple monthly interest, zero
when any input is missing/NaN (modelled by none) or the annual rate or
months-late value is negative. -/
def calcInterest (tax annualRate monthsLate : Option Rat) : Rat :=
  match tax, annualRate, monthsLate with
  | some t, some r, some m => if r < 0 ∨ m < 0 then 0 else t * (r / 12) * m
  | _, _, _ => 0

/-- Aggregated monthly taxable sales: non-exempt rows grouped by (state,
month) with total_amount summed.  Group keys appear in first-occurrence
order; the source sorts them, which permutes entries without changing the
per-key sums, the months present, or their maximum. -/
def monthlyTaxable (sales : List SalesRow) : List (String × Int × Rat) :=
  let tx := sales.filter (fun r => !r.is_exempt)
  let keys := (tx.map (fun r => (r.state, r.month))).dedup
  keys.map (fun k =>
    (k.1, k.2,
      ((tx.filter (fun r => decide (r.state = k.1) && decide (r.month = k.2))).map
        (fun r => r.total_amount)).sum))

/-- Last month present in the taxable-sales aggregate (the max over the
whole aggregate, across all states). -/
def lastDataMonth (sales : List SalesRow) : Int :=
  (((monthlyTaxable sales).map (fun e => e.2.1)).max?).getD 0

/-- First trigger month per triggered state: rows with a non-null
first_trigger_month reduced to the earliest value per state (the
drop_duplicates plus groupby-idxmin of the source). -/
def firstTriggers (nexus : List NexusRow) : List (String × Int) :=
  let pairs := (nexus.filterMap (fun r =>
    r.first_trigger_month.map (fun t => (r.state, t)))).dedup
  let sts := (pairs.map Prod.fst).dedup
  sts.map (fun s =>
    (s, (((pairs.filter (fun pr => decide (pr.1 = s))).map Prod.snd).min?).getD 0))

/-- Tax-rate validation for one state: missing/NaN tax rate and
unparseable or negative tax rate are rejected with the source's two
distinct warning messages. -/
def taxRateCheck (st : String) (prm : StateParams) : Except String Rat :=
  match prm.tax_rate with
  | none =>
    Except.error ("Missing or invalid tax_rate for state " ++ st ++
      " in config. Cannot calculate exposure for this state.")
  | some (ConfigNum.nonNumeric _) =>
    Except.error ("Invalid tax_rate format for state " ++ st ++
      " in config. Must be a number. Cannot calculate exposure.")
  | some (ConfigNum.num q) =>
    if q < 0 then
      Except.error ("Invalid tax_rate format for state " ++ st ++
        " in config. Must be a number. Cannot calculate exposure.")
    else Except.ok q

/-- Python int() truncation toward zero of a rational. -/
def truncInt (q : Rat) : Int := if q < 0 then q.ceil else q.floor

/-- Parse a VDA integer parameter: absent means the default, a numeric
value is truncated by int(), a non-numeric value fails. -/
def parseVdaInt : Option ConfigNum → Int → Option Int
  | none, d => some d
  | some (ConfigNum.num q), _ => some (truncInt q)
  | some (ConfigNum.nonNumeric _), _ => none

/-- Parse a VDA rate parameter: absent means the default, a non-numeric
value fails. -/
def parseVdaRat : Option ConfigNum → Rat → Option Rat
  | none, d => some d
  | some (ConfigNum.num q), _ => some q
  | some (ConfigNum.nonNumeric _), _ => none

/-- Validation of the three VDA parameters (lookback cap, annual interest
rate, standard penalty rate) with the source's defaults 36, 0.05, 0.25:
none when a parameter is non-numeric or any parsed value is negative. -/
def validateVda (prm : StateParams) : Option (Int × Rat × Rat) :=
  match parseVdaInt prm.vda_lookback_cap 36,
      parseVdaRat prm.vda_interest_rate (1 / 20),
      parseVdaRat prm.standard_penalty_rate (1 / 4) with
  | some lb, some ir, some pr =>
    if lb < 0 ∨ ir < 0 ∨ pr < 0 then none else some (lb, ir, pr)
  | _, _, _ => none

/-- Exposure row for one month when VDA parameters are invalid or VDA
estimation is off: taxable sales, rate and estimated tax are populated,
the eight VDA-related columns are all zero. -/
def baseRow (st : String) (m : Int) (taxableSales rate : Rat) : ExposureRow :=
  { state := st
    month_year := m
    taxable_sales := taxableSales
    tax_rate := rate
    estimated_tax := taxableSales * rate
    full_interest := 0
    full_penalty := 0
    full_liability := 0
    vda_tax := 0
    vda_interest := 0
    vda_penalty := 0
    vda_liability := 0
    estimated_vda_savings := 0 }

/-- Exposure row for one month with valid VDA parameters: full-liability
components over the whole window, VDA components only for months at or
after the VDA window start, savings as the difference. -/
def vdaRow (last vdaStart : Int) (ir pr : Rat) (waived : Bool)
    (st : String) (m : Int) (taxableSales rate : Rat) : ExposureRow :=
  let et := taxableSales * rate
  let ml : Rat := ((last - m : Int) : Rat)
  let fi := calcInterest (some et) (some ir) (some ml)
  let fp := et * pr
  let fl := et + fi + fp
  let vt := if vdaStart ≤ m then et else 0
  let vi := if vdaStart ≤ m then calcInterest (some vt) (some ir) (some ml) else 0
  let vp := vt * pr * (if waived then 0 else 1)
  let vl := vt + vi + vp
  { state := st
    month_year := m
    taxable_sales := taxableSales
    tax_rate := rate
    estimated_tax := et
    full_interest := fi
    full_penalty := fp
    full_liability := fl
    vda_tax := vt
    vda_interest := vi
    vda_penalty := vp
    vda_liability := vl
    estimated_vda_savings := fl - vl }

/-- Per-state body of ExposureCalculator.calculate_exposure for one entry
of the first-trigger table: config lookup, tax-rate validation, window
filter (months strictly after the trigger month), then either plain rows,
zero-filled rows with a warning (invalid VDA parameters), or full VDA
rows. -/
def stateChunk (monthly : List (String × Int × Rat))
    (cfg : String → Option StateParams) (vdaOption : String) (last : Int)
    (pr : String × Int) : List ExposureRow × List String :=
  match cfg pr.1 with
  | none =>
    ([], ["No configuration found for state: " ++ pr.1 ++
      ". Cannot calculate exposure."])
  | some prm =>
    match taxRateCheck pr.1 prm with
    | Except.error msg => ([], [msg])
    | Except.ok rate =>
      let startM := pr.2 + 1
      let rows := monthly.filter (fun e =>
        decide (e.1 = pr.1) && decide (startM ≤ e.2.1))
      if rows.isEmpty then ([], [])
      else if vdaOption = "Estimate" then
        match validateVda prm with
        | none =>
          (rows.map (fun e => baseRow pr.1 e.2.1 e.2.2 rate),
            ["Invalid VDA parameters for state " ++ pr.1 ++
              " in config. Skipping VDA estimation for this state."])
        | some (lb, ir, prr) =>
          let vdaStart := last - (lb - 1)
          (rows.map (fun e =>
            vdaRow last vdaStart ir prr prm.vda_penalty_waived pr.1 e.2.1 e.2.2 rate),
            [])
      else (rows.map (fun e => baseRow pr.1 e.2.1 e.2.2 rate), [])

/-- ExposureCalculator.calculate_exposure: early exits on empty inputs,
then one chunk of rows per first-trigger entry, with the warning messages
handed to the error collector. -/
def calculateExposure (sales : List SalesRow) (nexus : List NexusRow)
    (cfg : String → Option StateParams) (vdaOption : String) :
    List ExposureRow × List String :=
  if sales.isEmpty then ([], [])
  else if nexus.isEmpty then ([], [])
  else if (sales.filter (fun r => !r.is_exempt)).isEmpty then ([], [])
  else if (firstTriggers nexus).isEmpty then ([], [])
  else if (monthlyTaxable sales).isEmpty then ([], [])
  else
    let chunks := (firstTriggers nexus).map
      (fun pr => stateChunk (monthlyTaxable sales) cfg vdaOption (lastDataMonth sales) pr)
    ((chunks.map Prod.fst).flatten, (chunks.map Prod.snd).flatten)

/-! ## Concrete inputs used to test the claims -/

/-- Configuration used by several concrete runs: sales threshold 50, the
default rolling_12m rule with a one-month lookback window. -/
def exPrmRevert : StateParams := { sales_threshold := some 50, lookback_months := 1 }

/-- Concrete run in which the trigger condition holds in month 0 and no
longer holds in month 1 (the rolling window has moved past the sale). -/
def exTxnsRevert : List Txn :=
  [{ state := "CA", month := 0, total_amount := 100, invoice_number := 1,
     sales_channel := "WEB" },
   { state := "CA", month := 1, total_amount := 1, invoice_number := 2,
     sales_channel := "WEB" }]

def exCfgRevert : String → Option StateParams :=
  fun s => if s = "CA" then some exPrmRevert else none

/-- Expected month-0 row of the analyzer on exTxnsRevert. -/
def exRowRevertA : NexusRow :=
  { state := "CA", month_year := 0, rolling_sales := 100,
    rolling_transactions := 1, sales_threshold := some 50, txn_threshold := none,
    sales_met := true, txn_met := false, nexus_triggered := true,
    first_trigger_month := some 0, lookback_rule := "rolling_12m" }

/-- Expected month-1 row of the analyzer on exTxnsRevert. -/
def exRowRevertB : NexusRow :=
  { state := "CA", month_year := 1, rolling_sales := 1,
    rolling_transactions := 1, sales_threshold := some 50, txn_threshold := none,
    sales_met := false, txn_met := false, nexus_triggered := false,
    first_trigger_month := some 0, lookback_rule := "rolling_12m" }

/-- Expected analyzer output on exTxnsRevert. -/
def exRowsRevert : List NexusRow := [exRowRevertA, exRowRevertB]

/-- Concrete run in which the trigger condition first holds in month 1,
so the month-0 row carries a null first trigger. -/
def exTxnsLate : List Txn :=
  [{ state := "CA", month := 0, total_amount := 10, invoice_number := 1,
     sales_channel := "WEB" },
   { state := "CA", month := 1, total_amount := 100, invoice_number := 2,
     sales_channel := "WEB" }]

/-- Expected month-0 row of the analyzer on exTxnsLate. -/
def exRowLateA : NexusRow :=
  { state := "CA", month_year := 0, rolling_sales := 10,
    rolling_transactions := 1, sales_threshold := some 50, txn_threshold := none,
    sales_met := false, txn_met := false, nexus_triggered := false,
    first_trigger_month := none, lookback_rule := "rolling_12m" }

/-- Expected month-1 row of the analyzer on exTxnsLate. -/
def exRowLateB : NexusRow :=
  { state := "CA", month_year := 1, rolling_sales := 100,
    rolling_transactions := 1, sales_threshold := some 50, txn_threshold := none,
    sales_met := true, txn_met := false, nexus_triggered := true,
    first_trigger_month := some 1, lookback_rule := "rolling_12m" }

/-- Expected analyzer output on exTxnsLate. -/
def exRowsLate : List NexusRow := [exRowLateA, exRowLateB]

/-- Single transaction used to probe the rule dispatch directly. -/
def exTxnsOne : List Txn :=
  [{ state := "CA", month := 0, total_amount := 100, invoice_number := 1,
     sales_channel := "WEB" }]

/-- Concrete run for the marketplace-exclusion skip: the only data for CA
is marketplace-channel, and CA's config excludes marketplace sales. -/
def exTxnsMkt : List Txn :=
  [{ state := "CA", month := 0, total_amount := 100, invoice_number := 1,
     sales_channel := "AMAZON-FBA" }]

/-- Config for the marketplace-exclusion run. -/
def exPrmMkt : StateParams :=
  { sales_threshold := some 50, marketplace_threshold_inclusion := false }

def exCfgMkt : String → Option StateParams :=
  fun s => if s = "CA" then some exPrmMkt else none

/-- Nexus summary input for the exposure runs: CA triggered at month 0. -/
def exNexusCA : List NexusRow :=
  [{ state := "CA", month_year := 0, rolling_sales := 0,
     rolling_transactions := 0, sales_threshold := none, txn_threshold := none,
     sales_met := false, txn_met := false, nexus_triggered := true,
     first_trigger_month := some 0, lookback_rule := "rolling_12m" }]

/-- Exposure-run sales: one post-trigger month of net credits (negative
taxable sales). -/
def exSalesNeg : List SalesRow :=
  [{ state := "CA", month := 1, total_amount := -100, is_exempt := false }]

/-- Exposure-run sales: one post-trigger month of positive taxable sales. -/
def exSalesPos : List SalesRow :=
  [{ state := "CA", month := 1, total_amount := 100, is_exempt := false }]

/-- Exposure config: CA with tax rate 7 percent and default VDA values. -/
def exPrmExp : StateParams :=
  { sales_threshold := some 50, tax_rate := some (ConfigNum.num (7 / 100)) }

def exCfgExp : String → Option StateParams :=
  fun s => if s = "CA" then some exPrmExp else none

/-- Exposure config with an invalid (negative) VDA interest rate. -/
def exPrmVdaBad : StateParams :=
  { sales_threshold := some 50, tax_rate := some (ConfigNum.num (7 / 100)),
    vda_interest_rate := some (ConfigNum.num (-1 / 20)) }

def exCfgVdaBad : String → Option StateParams :=
  fun s => if s = "CA" then some exPrmVdaBad else none

/-- Expected single exposure row of the exSalesNeg run: one net-credit
month fully inside the VDA window with the penalty waived, so the savings
equal the (negative) full penalty. -/
def exNegRow : ExposureRow :=
  { state := "CA", month_year := 1, taxable_sales := -100,
    tax_rate := 7 / 100, estimated_tax := -7, full_interest := 0,
    full_penalty := -7 / 4, full_liability := -35 / 4, vda_tax := -7,
    vda_interest := 0, vda_penalty := 0, vda_liability := -7,
    estimated_vda_savings := -7 / 4 }

theorem addWarning_of_mem {c : ErrorCollector} {m : String}
    (h : m ∈ c.warnings) : addWarning c m = c := by
  simp [addWarning, h]

theorem addWarning_warnings_of_not_mem {c : ErrorCollector} {m : String}
    (h : m ∉ c.warnings) : (addWarning c m).warnings = c.warnings ++ [m] := by
  simp [addWarning, h]

/-- Invariant preserved by every collector operation: the warning list is
duplicate-free, the summary mirrors it, the counters match the lists, and
running more operations only ever adds warnings that were requested. -/
theorem foldl_applyOp_inv (ops : List CollectorOp) (c : ErrorCollector)
    (h1 : c.warnings.Nodup)
    (h2 : c.summary_warnings = c.warnings)
    (h3 : c.summary_warnings_count = c.warnings.length)
    (h4 : c.summary_rows_rejected = c.rejected_rows.length) :
    (ops.foldl applyOp c).warnings.Nodup ∧
    (ops.foldl applyOp c).summary_warnings = (ops.foldl applyOp c).warnings ∧
    (ops.foldl applyOp c).summary_warnings_count =
      (ops.foldl applyOp c).warnings.length ∧
    (ops.foldl applyOp c).summary_rows_rejected =
      (ops.foldl applyOp c).rejected_rows.length ∧
    (∀ m, m ∈ (ops.foldl applyOp c).warnings ↔
      m ∈ c.warnings ∨ CollectorOp.warn m ∈ ops) := by
  induction ops generalizing c with
  | nil => simp [h1, h2, h3, h4]
  | cons op rest ih =>
    cases op with
    | warn m =>
      by_cases hm : m ∈ c.warnings
      · have := ih c h1 h2 h3 h4
        simp only [List.foldl_cons, applyOp, addWarning_of_mem hm]
        refine ⟨this.1, this.2.1, this.2.2.1, this.2.2.2.1, ?_⟩
        intro x
        rw [this.2.2.2.2 x]
        constructor
        · rintro (h | h)
          · exact Or.inl h
          · exact Or.inr (List.mem_cons_of_mem _ h)
        · rintro (h | h)
          · exact Or.inl h
          · rcases List.mem_cons.mp h with h | h
            · cases h; exact Or.inl hm
            · exact Or.inr h
      · have h1' : (addWarning c m).warnings.Nodup := by
          rw [addWarning_warnings_of_not_mem hm]
          exact List.Nodup.append h1 (List.nodup_singleton m)
            (by simpa using fun h => hm h)
        have h2' : (addWarning c m).summary_warnings = (addWarning c m).warnings := by
          simp [addWarning, hm, h2]
        have h3' : (addWarning c m).summary_warnings_count =
            (addWarning c m).warnings.length := by
          simp [addWarning, hm]
        have h4' : (addWarning c m).summary_rows_rejected =
            (addWarning c m).rejected_rows.length := by
          simp [addWarning, hm, h4]
        have := ih (addWarning c m) h1' h2' h3' h4'
        simp only [List.foldl_cons, applyOp]
        refine ⟨this.1, this.2.1, this.2.2.1, this.2.2.2.1, ?_⟩
        intro x
        rw [this.2.2.2.2 x, addWarning_warnings_of_not_mem hm]
        simp only [List.mem_append, List.mem_singleton, List.mem_cons]
        constructor
        · rintro ((h | h) | h)
          · exact Or.inl h
          · rcases h with h | h
            · exact Or.inr (Or.inl (by rw [h]))
            · exact absurd h (List.not_mem_nil x)
          · exact Or.inr (Or.inr h)
        · rintro (h | (h | h))
          · exact Or.inl (Or.inl h)
          · exact Or.inl (Or.inr (by cases h; exact Or.inl rfl))
          · exact Or.inr h
    | reject r s =>
      have h1' : (addRejectedRow c r s).warnings.Nodup := h1
      have h2' : (addRejectedRow c r s).summary_warnings =
          (addRejectedRow c r s).warnings := h2
      have h3' : (addRejectedRow c r s).summary_warnings_count =
          (addRejectedRow c r s).warnings.length := h3
      have h4' : (addRejectedRow c r s).summary_rows_rejected =
          (addRejectedRow c r s).rejected_rows.length := by
        simp [addRejectedRow, h4]
      have := ih (addRejectedRow c r s) h1' h2' h3' h4'
      simp only [List.foldl_cons, applyOp]
      refine ⟨this.1, this.2.1, this.2.2.1, this.2.2.2.1, ?_⟩
      intro x
      rw [this.2.2.2.2 x]
      simp only [addRejectedRow, List.mem_cons]
      constructor
      · rintro (h | h)
        · exact Or.inl h
        · exact Or.inr (Or.inr h)
      · rintro (h | (h | h))
        · exact Or.inl h
        · exact absurd h (by simp)
        · exact Or.inr h

/-- C9: ErrorCollector.add_warning is idempotent per message: calling it
with a message already present leaves the collector (warning list, summary
list, counter) unchanged, and after any sequence of add_warning calls on a
fresh collector the warning list contains each distinct message exactly
once. -/
theorem C9_addWarning_idempotent :
    (∀ (c : ErrorCollector) (m : String), m ∈ c.warnings → addWarning c m = c) ∧
    (∀ (msgs : List String) (m : String),
      ((msgs.foldl addWarning initCollector).warnings).count m =
        if m ∈ msgs then 1 else 0) := by
  constructor
  · exact fun c m h => addWarning_of_mem h
  · intro msgs m
    have he : (msgs.map CollectorOp.warn).foldl applyOp initCollector =
        msgs.foldl addWarning initCollector := by
      rw [List.foldl_map]
      rfl
    have key := foldl_applyOp_inv (msgs.map CollectorOp.warn) initCollector
      (by simp [initCollector]) rfl rfl rfl
    rw [he] at key
    have hmem : m ∈ (msgs.foldl addWarning initCollector).warnings ↔ m ∈ msgs := by
      rw [key.2.2.2.2 m]
      simp [initCollector, List.mem_map]
    by_cases hm : m ∈ msgs
    · rw [if_pos hm]
      exact List.count_eq_one_of_mem key.1 (hmem.mpr hm)
    · rw [if_neg hm]
      exact List.count_eq_zero.mpr (fun h => hm (hmem.mp h))

/-- Witness for C9 at concrete inputs: the message w1 is present after one
add_warning, re-adding it changes nothing, and after the sequence
[w1, w1] it is counted exactly once. -/
theorem C9_addWarning_idempotent_witness :
    "w1" ∈ (addWarning initCollector "w1").warnings ∧
    addWarning (addWarning initCollector "w1") "w1" = addWarning initCollector "w1" ∧
    ((["w1", "w1"].foldl addWarning initCollector).warnings).count "w1" =
      (if "w1" ∈ (["w1", "w1"] : List String) then 1 else 0) :=
  ⟨by decide, C9_addWarning_idempotent.1 _ "w1" (by decide),
    C9_addWarning_idempotent.2 ["w1", "w1"] "w1"⟩

/-- C10: after any sequence of add_warning and add_rejected_row calls on a
fresh collector, the counters stay consistent with the stored lists: the
warnings counter equals the length of the (duplicate-free) warning list,
the summary warning list equals the warning list, and the rows_rejected
counter equals the number of rejected-row entries. -/
theorem C10_counters_consistent : ∀ ops : List CollectorOp,
    (runOps ops).warnings.Nodup ∧
    (runOps ops).summary_warnings = (runOps ops).warnings ∧
    (runOps ops).summary_warnings_count = (runOps ops).warnings.length ∧
    (runOps ops).summary_rows_rejected = (runOps ops).rejected_rows.length :=
  fun ops =>
    have h := foldl_applyOp_inv ops initCollector (by simp [initCollector]) rfl rfl rfl
    ⟨h.1, h.2.1, h.2.2.1, h.2.2.2.1⟩

/-! ## Structural lemmas about the per-state nexus loop -/

theorem nexusStep_acc (stxns : List Txn) (prm : StateParams) (st : String)
    (acc : Option Int) (p : Int) :
    (nexusStep stxns prm st acc p).2 =
      if trigAt stxns prm p && acc.isNone then some p else acc := rfl

theorem nexusStep_month (stxns : List Txn) (prm : StateParams) (st : String)
    (acc : Option Int) (p : Int) :
    (nexusStep stxns prm st acc p).1.month_year = p := rfl

theorem nexusStep_state (stxns : List Txn) (prm : StateParams) (st : String)
    (acc : Option Int) (p : Int) :
    (nexusStep stxns prm st acc p).1.state = st := rfl

theorem nexusStep_trig (stxns : List Txn) (prm : StateParams) (st : String)
    (acc : Option Int) (p : Int) :
    (nexusStep stxns prm st acc p).1.nexus_triggered = trigAt stxns prm p := rfl

theorem nexusStep_first (stxns : List Txn) (prm : StateParams) (st : String)
    (acc : Option Int) (p : Int) :
    (nexusStep stxns prm st acc p).1.first_trigger_month =
      (nexusStep stxns prm st acc p).2 := rfl

theorem nexusRows_nil (stxns : List Txn) (prm : StateParams) (st : String)
    (acc : Option Int) : nexusRows stxns prm st acc [] = [] := rfl

theorem nexusRows_cons (stxns : List Txn) (prm : StateParams) (st : String)
    (acc : Option Int) (p : Int) (ps : List Int) :
    nexusRows stxns prm st acc (p :: ps) =
      (nexusStep stxns prm st acc p).1 ::
        nexusRows stxns prm st (nexusStep stxns prm st acc p).2 ps := rfl

theorem nexusRows_state (stxns : List Txn) (prm : StateParams) (st : String) :
    ∀ (ps : List Int) (acc : Option Int),
      ∀ r ∈ nexusRows stxns prm st acc ps, r.state = st := by
  intro ps
  induction ps with
  | nil => intro acc r hr; simp [nexusRows_nil] at hr
  | cons p ps ih =>
    intro acc r hr
    rw [nexusRows_cons] at hr
    rcases List.mem_cons.mp hr with h | h
    · rw [h, nexusStep_state]
    · exact ih _ r h

theorem nexusRows_map_month (stxns : List Txn) (prm : StateParams) (st : String) :
    ∀ (ps : List Int) (acc : Option Int),
      (nexusRows stxns prm st acc ps).map (fun r => r.month_year) = ps := by
  intro ps
  induction ps with
  | nil => intro acc; rfl
  | cons p ps ih =>
    intro acc
    rw [nexusRows_cons]
    simp [nexusStep_month, ih]

theorem nexusRows_month_mem {stxns : List Txn} {prm : StateParams} {st : String}
    {ps : List Int} {acc : Option Int} {r : NexusRow}
    (hr : r ∈ nexusRows stxns prm st acc ps) : r.month_year ∈ ps := by
  rw [← nexusRows_map_month stxns prm st ps acc]
  exact List.mem_map_of_mem _ hr

theorem nexusRows_trig (stxns : List Txn) (prm : StateParams) (st : String) :
    ∀ (ps : List Int) (acc : Option Int),
      ∀ r ∈ nexusRows stxns prm st acc ps,
        r.nexus_triggered = trigAt stxns prm r.month_year := by
  intro ps
  induction ps with
  | nil => intro acc r hr; simp [nexusRows_nil] at hr
  | cons p ps ih =>
    intro acc r hr
    rw [nexusRows_cons] at hr
    rcases List.mem_cons.mp hr with h | h
    · rw [h, nexusStep_trig, nexusStep_month]
    · exact ih _ r h

theorem nexusRows_of_some (stxns : List Txn) (prm : StateParams) (st : String)
    (t : Int) : ∀ (ps : List Int),
      ∀ r ∈ nexusRows stxns prm st (some t) ps, r.first_trigger_month = some t := by
  intro ps
  induction ps with
  | nil => intro r hr; simp [nexusRows_nil] at hr
  | cons p ps ih =>
    intro r hr
    rw [nexusRows_cons] at hr
    have hacc : (nexusStep stxns prm st (some t) p).2 = some t := by
      rw [nexusStep_acc]; simp
    rcases List.mem_cons.mp hr with h | h
    · rw [h, nexusStep_first, hacc]
    · rw [hacc] at h
      exact ih r h

/-- Characterization of the first-trigger value carried on each row when
the loop starts untriggered: a row records some t exactly when t is the
earliest analysis period at or before the row's month whose trigger test
fires. -/
theorem nexusRows_first_some_iff (stxns : List Txn) (prm : StateParams)
    (st : String) : ∀ (ps : List Int), ps.Pairwise (· < ·) →
    ∀ r ∈ nexusRows stxns prm st none ps, ∀ (t : Int),
      (r.first_trigger_month = some t ↔
        t ∈ ps ∧ t ≤ r.month_year ∧ trigAt stxns prm t = true ∧
        ∀ q ∈ ps, q < t → trigAt stxns prm q = false) := by
  intro ps
  induction ps with
  | nil => intro _ r hr; simp [nexusRows_nil] at hr
  | cons p ps ih =>
    intro hpw r hr t
    obtain ⟨hlt, hpw'⟩ := List.pairwise_cons.mp hpw
    rw [nexusRows_cons] at hr
    by_cases htrig : trigAt stxns prm p = true
    · have hacc : (nexusStep stxns prm st none p).2 = some p := by
        rw [nexusStep_acc]; simp [htrig]
      have hfirst : r.first_trigger_month = some p := by
        rcases List.mem_cons.mp hr with h | h
        · rw [h, nexusStep_first, hacc]
        · rw [hacc] at h
          exact nexusRows_of_some stxns prm st p ps r h
      have hmonth : p ≤ r.month_year := by
        rcases List.mem_cons.mp hr with h | h
        · rw [h, nexusStep_month]
        · rw [hacc] at h
          exact le_of_lt (hlt _ (nexusRows_month_mem h))
      rw [hfirst]
      constructor
      · intro hsome
        have ht : t = p := by
          have := Option.some.inj hsome
          omega
        subst ht
        refine ⟨List.mem_cons_self _ _, hmonth, htrig, ?_⟩
        intro q hq hqlt
        rcases List.mem_cons.mp hq with h | h
        · exact absurd hqlt (by omega)
        · exact ((lt_asymm hqlt) (hlt q h)).elim
      · rintro ⟨ht, _, htr, hmin⟩
        rcases List.mem_cons.mp ht with h | h
        · rw [h]
        · have := hmin p (List.mem_cons_self _ _) (hlt t h)
          rw [htrig] at this
          cases this
    · have htrig' : trigAt stxns prm p = false :=
        Bool.eq_false_iff.mpr htrig
      have hacc : (nexusStep stxns prm st none p).2 = none := by
        rw [nexusStep_acc]; simp [htrig']
      rcases List.mem_cons.mp hr with h | h
      · rw [h, nexusStep_first, hacc, nexusStep_month]
        constructor
        · intro h'
          exact absurd h' (by simp)
        · rintro ⟨ht, hle, htr, _⟩
          exfalso
          rcases List.mem_cons.mp ht with h' | h'
          · rw [h'] at htr
            rw [htr] at htrig'
            cases htrig'
          · have := hlt t h'
            omega
      · rw [hacc] at h
        rw [ih hpw' r h t]
        constructor
        · rintro ⟨ht, hle, htr, hmin⟩
          refine ⟨List.mem_cons_of_mem _ ht, hle, htr, ?_⟩
          intro q hq hqlt
          rcases List.mem_cons.mp hq with h' | h'
          · rw [h']; exact htrig'
          · exact hmin q h' hqlt
        · rintro ⟨ht, hle, htr, hmin⟩
          rcases List.mem_cons.mp ht with h' | h'
          · rw [h'] at htr
            rw [htr] at htrig'
            cases htrig'
          · exact ⟨h', hle, htr,
              fun q hq hqlt => hmin q (List.mem_cons_of_mem _ hq) hqlt⟩

/-- Companion characterization: a row records a null first trigger exactly
when no analysis period at or before the row's month fires. -/
theorem nexusRows_first_none_iff (stxns : List Txn) (prm : StateParams)
    (st : String) : ∀ (ps : List Int), ps.Pairwise (· < ·) →
    ∀ r ∈ nexusRows stxns prm st none ps,
      (r.first_trigger_month = none ↔
        ∀ q ∈ ps, q ≤ r.month_year → trigAt stxns prm q = false) := by
  intro ps
  induction ps with
  | nil => intro _ r hr; simp [nexusRows_nil] at hr
  | cons p ps ih =>
    intro hpw r hr
    obtain ⟨hlt, hpw'⟩ := List.pairwise_cons.mp hpw
    rw [nexusRows_cons] at hr
    by_cases htrig : trigAt stxns prm p = true
    · have hacc : (nexusStep stxns prm st none p).2 = some p := by
        rw [nexusStep_acc]; simp [htrig]
      have hfirst : r.first_trigger_month = some p := by
        rcases List.mem_cons.mp hr with h | h
        · rw [h, nexusStep_first, hacc]
        · rw [hacc] at h
          exact nexusRows_of_some stxns prm st p ps r h
      have hmonth : p ≤ r.month_year := by
        rcases List.mem_cons.mp hr with h | h
        · rw [h, nexusStep_month]
        · rw [hacc] at h
          exact le_of_lt (hlt _ (nexusRows_month_mem h))
      rw [hfirst]
      constructor
      · intro h'; cases h'
      · intro hall
        have := hall p (List.mem_cons_self _ _) hmonth
        rw [htrig] at this
        cases this
    · have htrig' : trigAt stxns prm p = false :=
        Bool.eq_false_iff.mpr htrig
      have hacc : (nexusStep stxns prm st none p).2 = none := by
        rw [nexusStep_acc]; simp [htrig']
      rcases List.mem_cons.mp hr with h | h
      · rw [h, nexusStep_first, hacc, nexusStep_month]
        constructor
        · intro _ q hq hqle
          rcases List.mem_cons.mp hq with h' | h'
          · rw [h']; exact htrig'
          · exact ((not_le_of_lt (hlt q h')) hqle).elim
        · intro _; rfl
      · rw [hacc] at h
        rw [ih hpw' r h]
        constructor
        · intro hall q hq hqle
          rcases List.mem_cons.mp hq with h' | h'
          · rw [h']; exact htrig'
          · exact hall q h' hqle
        · intro hall q hq hqle
          exact hall q (List.mem_cons_of_mem _ hq) hqle

/-! ## Transfer lemmas from the per-state loop to the full analyzer -/

theorem mem_analyzeState {txns : List Txn} {cfg : String → Option StateParams}
    {periods : List Int} {st : String} {r : NexusRow}
    (hr : r ∈ (analyzeState txns cfg periods st).1) :
    ∃ prm, cfg st = some prm ∧
      (analyzeState txns cfg periods st).1 =
        nexusRows (stateFiltered txns st prm) prm st none periods := by
  revert hr
  unfold analyzeState
  cases hcfg : cfg st with
  | none => intro hr; simp at hr
  | some prm =>
    simp only
    by_cases h1 : (prm.sales_threshold = none ∧ prm.transaction_threshold = none) ∨
        prm.lookback_rule = "none"
    · rw [if_pos h1]; intro hr; simp at hr
    · rw [if_neg h1]
      by_cases h2 : (stateFiltered txns st prm).isEmpty = true
      · rw [if_pos h2]; intro hr; simp at hr
      · rw [if_neg h2]; intro _
        exact ⟨prm, rfl, rfl⟩

theorem analyzeState_rows (txns : List Txn) (cfg : String → Option StateParams)
    (periods : List Int) (st : String) (prm : StateParams)
    (hcfg : cfg st = some prm)
    (hth : ¬((prm.sales_threshold = none ∧ prm.transaction_threshold = none) ∨
      prm.lookback_rule = "none"))
    (hne : ¬(stateFiltered txns st prm).isEmpty) :
    (analyzeState txns cfg periods st).1 =
      nexusRows (stateFiltered txns st prm) prm st none periods := by
  unfold analyzeState
  rw [hcfg]
  simp only [if_neg hth, if_neg hne]

theorem mem_analyzeNexus {txns : List Txn} {cfg : String → Option StateParams}
    {r : NexusRow} (hr : r ∈ (analyzeNexus txns cfg).1) :
    ∃ st ∈ statesOf txns,
      r ∈ (analyzeState txns cfg (analysisPeriods txns) st).1 := by
  unfold analyzeNexus at hr
  by_cases he : txns.isEmpty = true
  · rw [if_pos he] at hr; simp at hr
  · rw [if_neg he] at hr
    simp only [List.mem_flatten, List.mem_map] at hr
    obtain ⟨l, ⟨pair, ⟨st, hst, rfl⟩, rfl⟩, hrl⟩ := hr
    exact ⟨st, hst, hrl⟩

/-- Combined membership: every row of the analyzer output comes from the
per-state loop of its own state. -/
theorem mem_analyzeNexus_rows {txns : List Txn}
    {cfg : String → Option StateParams} {r : NexusRow}
    (hr : r ∈ (analyzeNexus txns cfg).1) :
    ∃ prm, cfg r.state = some prm ∧ r.state ∈ statesOf txns ∧
      r ∈ nexusRows (stateFiltered txns r.state prm) prm r.state none
        (analysisPeriods txns) := by
  obtain ⟨st, hst, hr'⟩ := mem_analyzeNexus hr
  obtain ⟨prm, hcfg, heq⟩ := mem_analyzeState hr'
  rw [heq] at hr'
  have hstate : r.state = st :=
    nexusRows_state _ prm st _ none r hr'
  subst hstate
  exact ⟨prm, hcfg, hst, hr'⟩

theorem analysisPeriods_pairwise (txns : List Txn) :
    (analysisPeriods txns).Pairwise (· < ·) := by
  unfold analysisPeriods
  cases h1 : (txns.map (fun t => t.month)).min? with
  | none => simp
  | some lo =>
    cases h2 : (txns.map (fun t => t.month)).max? with
    | none => simp
    | some hi =>
      simp only []
      rw [List.pairwise_map]
      refine (List.pairwise_lt_range _).imp ?_
      intro a b h
      change lo + (a : Int) < lo + (b : Int)
      omega

theorem analysisPeriods_nodup (txns : List Txn) :
    (analysisPeriods txns).Nodup :=
  (analysisPeriods_pairwise txns).imp (fun h => by omega)

/-! ## Forward transfer: per-state rows appear in the analyzer output -/

theorem analyzeNexus_txns_ne {txns : List Txn} {cfg : String → Option StateParams}
    {r : NexusRow} (hr : r ∈ (analyzeNexus txns cfg).1) :
    txns.isEmpty = false := by
  by_cases he : txns.isEmpty = true
  · unfold analyzeNexus at hr
    rw [if_pos he] at hr
    simp at hr
  · simpa using he

theorem analyzeState_sub {txns : List Txn} {cfg : String → Option StateParams}
    {st : String} {r : NexusRow} (hst : st ∈ statesOf txns)
    (hne : txns.isEmpty = false)
    (hr : r ∈ (analyzeState txns cfg (analysisPeriods txns) st).1) :
    r ∈ (analyzeNexus txns cfg).1 := by
  unfold analyzeNexus
  rw [if_neg (by simp [hne])]
  simp only [List.mem_flatten, List.mem_map]
  exact ⟨_, ⟨_, ⟨st, hst, rfl⟩, rfl⟩, hr⟩

/-! ## Evaluation lemmas for the concrete analyzer runs -/

theorem exRevert_eval : (analyzeNexus exTxnsRevert exCfgRevert).1 = exRowsRevert := by
  have hempty : exTxnsRevert.isEmpty = false := rfl
  have hstates : statesOf exTxnsRevert = ["CA"] := by decide
  have hper : analysisPeriods exTxnsRevert = [0, 1] := by decide
  have hcfg : exCfgRevert "CA" = some exPrmRevert := rfl
  have hsf : stateFiltered exTxnsRevert "CA" exPrmRevert = exTxnsRevert := by decide
  have hth1 : exPrmRevert.sales_threshold = some 50 := rfl
  have hth2 : exPrmRevert.transaction_threshold = none := rfl
  have hrule : exPrmRevert.lookback_rule = "rolling_12m" := rfl
  have hagg0 : aggAt exTxnsRevert exPrmRevert 0 = (100, 1) := by
    norm_num [aggAt, calcRollingAggregates, exPrmRevert, exTxnsRevert,
      windowTxns, sumSales, countDistinct]
  have hagg1 : aggAt exTxnsRevert exPrmRevert 1 = (1, 1) := by
    norm_num [aggAt, calcRollingAggregates, exPrmRevert, exTxnsRevert,
      windowTxns, sumSales, countDistinct]
  have hs0 : salesMetAt exTxnsRevert exPrmRevert 0 = true := by
    simp only [salesMetAt, hth1, hagg0]
    rw [decide_eq_true_eq]
    norm_num
  have hs1 : salesMetAt exTxnsRevert exPrmRevert 1 = false := by
    simp only [salesMetAt, hth1, hagg1]
    simp only [decide_eq_false_iff_not]
    norm_num
  have ht : ∀ p : Int, txnMetAt exTxnsRevert exPrmRevert p = false := fun p => rfl
  simp only [analyzeNexus, hempty, Bool.false_eq_true, if_false, hstates, hper,
    List.map_cons, List.map_nil, List.flatten, analyzeState, hcfg,
    List.append_nil]
  simp only [hth1, hth2, hrule]
  rw [if_neg (by simp)]
  rw [hsf, hempty]
  simp only [Bool.false_eq_true, if_false]
  simp [nexusRows_cons, nexusRows_nil, nexusStep, trigAt, hs0, hs1, ht, hagg0,
    hagg1, exRowsRevert, hth1, hth2, hrule, exRowRevertA, exRowRevertB]

theorem exLate_eval : (analyzeNexus exTxnsLate exCfgRevert).1 = exRowsLate := by
  have hempty : exTxnsLate.isEmpty = false := rfl
  have hstates : statesOf exTxnsLate = ["CA"] := by decide
  have hper : analysisPeriods exTxnsLate = [0, 1] := by decide
  have hcfg : exCfgRevert "CA" = some exPrmRevert := rfl
  have hsf : stateFiltered exTxnsLate "CA" exPrmRevert = exTxnsLate := by decide
  have hth1 : exPrmRevert.sales_threshold = some 50 := rfl
  have hth2 : exPrmRevert.transaction_threshold = none := rfl
  have hrule : exPrmRevert.lookback_rule = "rolling_12m" := rfl
  have hagg0 : aggAt exTxnsLate exPrmRevert 0 = (10, 1) := by
    norm_num [aggAt, calcRollingAggregates, exPrmRevert, exTxnsLate,
      windowTxns, sumSales, countDistinct]
  have hagg1 : aggAt exTxnsLate exPrmRevert 1 = (100, 1) := by
    norm_num [aggAt, calcRollingAggregates, exPrmRevert, exTxnsLate,
      windowTxns, sumSales, countDistinct]
  have hs0 : salesMetAt exTxnsLate exPrmRevert 0 = false := by
    simp only [salesMetAt, hth1, hagg0]
    simp only [decide_eq_false_iff_not]
    norm_num
  have hs1 : salesMetAt exTxnsLate exPrmRevert 1 = true := by
    simp only [salesMetAt, hth1, hagg1]
    rw [decide_eq_true_eq]
    norm_num
  have ht : ∀ p : Int, txnMetAt exTxnsLate exPrmRevert p = false := fun p => rfl
  simp only [analyzeNexus, hempty, Bool.false_eq_true, if_false, hstates, hper,
    List.map_cons, List.map_nil, List.flatten, analyzeState, hcfg,
    List.append_nil]
  simp only [hth1, hth2, hrule]
  rw [if_neg (by simp)]
  rw [hsf, hempty]
  simp only [Bool.false_eq_true, if_false]
  simp [nexusRows_cons, nexusRows_nil, nexusStep, trigAt, hs0, hs1, ht, hagg0,
    hagg1, exRowsLate, hth1, hth2, hrule, exRowLateA, exRowLateB]

/-! ## Claim C1 -/

/-- C1 as stated is false on the code: the per-month nexus_triggered flag
is recomputed as sales_met OR txn_met each month and is not latched, so
it reverts once the rolling window moves past the qualifying sales.  In
the exTxnsRevert run CA is triggered at month 0 and untriggered at
month 1. -/
theorem C1_counterexample :
    ∃ r1 ∈ (analyzeNexus exTxnsRevert exCfgRevert).1,
      ∃ r2 ∈ (analyzeNexus exTxnsRevert exCfgRevert).1,
        r1.state = r2.state ∧ r1.month_year < r2.month_year ∧
        r1.nexus_triggered = true ∧ r2.nexus_triggered = false := by
  rw [exRevert_eval]
  simp only [exRowsRevert]
  exact ⟨exRowRevertA, List.mem_cons_self _ _,
    exRowRevertB, List.mem_cons_of_mem _ (List.mem_cons_self _ _),
    rfl, by decide, rfl, rfl⟩

/-- C1 (amended): what is monotone in the analyzer output is the latched
first_trigger_month, not the raw nexus_triggered flag: once a row of a
state carries first_trigger_month = some t, every later row of that state
carries the same value (while nexus_triggered equals that month's
sales_met OR txn_met and may revert to false). -/
theorem C1_first_trigger_latched (txns : List Txn)
    (cfg : String → Option StateParams) :
    ∀ r1 ∈ (analyzeNexus txns cfg).1, ∀ r2 ∈ (analyzeNexus txns cfg).1,
      r1.state = r2.state → r1.month_year < r2.month_year →
      ∀ t : Int, r1.first_trigger_month = some t →
        r2.first_trigger_month = some t := by
  intro r1 hr1 r2 hr2 hst hm t hft
  obtain ⟨prm1, hcfg1, _, hrows1⟩ := mem_analyzeNexus_rows hr1
  obtain ⟨prm2, hcfg2, _, hrows2⟩ := mem_analyzeNexus_rows hr2
  rw [hst] at hcfg1 hrows1
  have hprm : prm1 = prm2 := by
    rw [hcfg1] at hcfg2
    exact Option.some.inj hcfg2
  subst hprm
  have hpw := analysisPeriods_pairwise txns
  obtain ⟨htps, htle, htr, hmin⟩ :=
    (nexusRows_first_some_iff _ prm1 _ _ hpw r1 hrows1 t).mp hft
  exact (nexusRows_first_some_iff _ prm1 _ _ hpw r2 hrows2 t).mpr
    ⟨htps, by omega, htr, hmin⟩

/-- Witness for the amended C1 on the exTxnsRevert run: both rows of CA
carry the latched value some 0, and the theorem applies to them. -/
theorem C1_first_trigger_latched_witness :
    exRowRevertA ∈ (analyzeNexus exTxnsRevert exCfgRevert).1 ∧
    exRowRevertB ∈ (analyzeNexus exTxnsRevert exCfgRevert).1 ∧
    exRowRevertA.state = exRowRevertB.state ∧
    exRowRevertA.month_year < exRowRevertB.month_year ∧
    exRowRevertA.first_trigger_month = some 0 ∧
    exRowRevertB.first_trigger_month = some 0 := by
  have hA : exRowRevertA ∈ (analyzeNexus exTxnsRevert exCfgRevert).1 := by
    rw [exRevert_eval]; simp [exRowsRevert]
  have hB : exRowRevertB ∈ (analyzeNexus exTxnsRevert exCfgRevert).1 := by
    rw [exRevert_eval]; simp [exRowsRevert]
  exact ⟨hA, hB, rfl, by decide, rfl,
    C1_first_trigger_latched exTxnsRevert exCfgRevert exRowRevertA hA
      exRowRevertB hB rfl (by decide) 0 rfl⟩

/-! ## Claim C2 -/

/-- C2 as stated is false on the code: first_trigger_month is not the
same value on every row of a state, and it is null on pre-trigger rows
even when later rows of the state are triggered.  In the exTxnsLate run
CA triggers at month 1, so the month-0 row carries null while the month-1
row carries some 1. -/
theorem C2_counterexample :
    ∃ r1 ∈ (analyzeNexus exTxnsLate exCfgRevert).1,
      ∃ r2 ∈ (analyzeNexus exTxnsLate exCfgRevert).1,
        r1.state = r2.state ∧ r2.nexus_triggered = true ∧
        r1.first_trigger_month = none ∧
        r1.first_trigger_month ≠ r2.first_trigger_month := by
  rw [exLate_eval]
  simp only [exRowsLate]
  refine ⟨exRowLateA, List.mem_cons_self _ _,
    exRowLateB, List.mem_cons_of_mem _ (List.mem_cons_self _ _),
    rfl, rfl, rfl, by decide⟩

/-- C2 (amended): per-row characterization of first_trigger_month.  On a
row carrying some t, t is at most the row's month, the state has a
triggered row at month t, every earlier row of the state is untriggered
(so t is the minimum triggered month of the state), and every row of the
state from month t onward carries the same value some t.  A row carries
null exactly when no row of its state at or before that row's month is
triggered (so a state's rows are all null iff no row of the state is
triggered). -/
theorem C2_first_trigger_min (txns : List Txn)
    (cfg : String → Option StateParams) :
    ∀ r ∈ (analyzeNexus txns cfg).1,
      (∀ t : Int, r.first_trigger_month = some t →
        t ≤ r.month_year ∧
        (∃ r0 ∈ (analyzeNexus txns cfg).1, r0.state = r.state ∧
          r0.month_year = t ∧ r0.nexus_triggered = true) ∧
        (∀ r' ∈ (analyzeNexus txns cfg).1, r'.state = r.state →
          r'.month_year < t → r'.nexus_triggered = false) ∧
        (∀ r' ∈ (analyzeNexus txns cfg).1, r'.state = r.state →
          t ≤ r'.month_year → r'.first_trigger_month = some t)) ∧
      (r.first_trigger_month = none ↔
        ∀ r' ∈ (analyzeNexus txns cfg).1, r'.state = r.state →
          r'.month_year ≤ r.month_year → r'.nexus_triggered = false) := by
  intro r hr
  have hne := analyzeNexus_txns_ne hr
  obtain ⟨st, hstmem, hrstate⟩ := mem_analyzeNexus hr
  obtain ⟨prm, hcfg, heq⟩ := mem_analyzeState hrstate
  have hrows : r ∈ nexusRows (stateFiltered txns st prm) prm st none
      (analysisPeriods txns) := heq ▸ hrstate
  have hrst : r.state = st := nexusRows_state _ prm st _ none r hrows
  have hpw := analysisPeriods_pairwise txns
  -- rows of the same state in the output lie in the same per-state block
  have hsame : ∀ r' ∈ (analyzeNexus txns cfg).1, r'.state = r.state →
      r' ∈ nexusRows (stateFiltered txns st prm) prm st none
        (analysisPeriods txns) := by
    intro r' hr' hst'
    obtain ⟨st', _, hrstate'⟩ := mem_analyzeNexus hr'
    obtain ⟨prm', hcfg', heq'⟩ := mem_analyzeState hrstate'
    have hrows' : r' ∈ nexusRows (stateFiltered txns st' prm') prm' st' none
        (analysisPeriods txns) := heq' ▸ hrstate'
    have : r'.state = st' := nexusRows_state _ prm' st' _ none r' hrows'
    rw [this, hrst] at hst'
    subst hst'
    rw [hcfg] at hcfg'
    rw [← Option.some.inj hcfg'] at hrows'
    exact hrows'
  -- any analysis period has a block row at that month, and it is output
  have hrowat : ∀ q ∈ analysisPeriods txns,
      ∃ r0 ∈ (analyzeNexus txns cfg).1, r0.state = r.state ∧
        r0.month_year = q ∧
        r0.nexus_triggered = trigAt (stateFiltered txns st prm) prm q := by
    intro q hq
    rw [← nexusRows_map_month (stateFiltered txns st prm) prm st
      (analysisPeriods txns) none] at hq
    obtain ⟨r0, hr0, hr0m⟩ := List.mem_map.mp hq
    have hout : r0 ∈ (analyzeNexus txns cfg).1 :=
      analyzeState_sub hstmem hne (heq ▸ hr0)
    refine ⟨r0, hout, ?_, hr0m, ?_⟩
    · rw [nexusRows_state _ prm st _ none r0 hr0, hrst]
    · rw [nexusRows_trig _ prm st _ none r0 hr0, hr0m]
  constructor
  · intro t hft
    obtain ⟨htps, htle, htr, hmin⟩ :=
      (nexusRows_first_some_iff _ prm st _ hpw r hrows t).mp hft
    refine ⟨htle, ?_, ?_, ?_⟩
    · obtain ⟨r0, hr0out, hr0st, hr0m, hr0trig⟩ := hrowat t htps
      exact ⟨r0, hr0out, hr0st, hr0m, by rw [hr0trig, htr]⟩
    · intro r' hr' hst' hlt'
      have hrows' := hsame r' hr' hst'
      rw [nexusRows_trig _ prm st _ none r' hrows']
      exact hmin r'.month_year (nexusRows_month_mem hrows') hlt'
    · intro r' hr' hst' hle'
      have hrows' := hsame r' hr' hst'
      exact (nexusRows_first_some_iff _ prm st _ hpw r' hrows' t).mpr
        ⟨htps, hle', htr, hmin⟩
  · rw [nexusRows_first_none_iff _ prm st _ hpw r hrows]
    constructor
    · intro hall r' hr' hst' hle'
      have hrows' := hsame r' hr' hst'
      rw [nexusRows_trig _ prm st _ none r' hrows']
      exact hall r'.month_year (nexusRows_month_mem hrows') hle'
    · intro hall q hq hqle
      obtain ⟨r0, hr0out, hr0st, hr0m, hr0trig⟩ := hrowat q hq
      have hfalse := hall r0 hr0out hr0st (by rw [hr0m]; exact hqle)
      rw [hr0trig] at hfalse
      exact hfalse

/-- Witness for the amended C2 on the exTxnsLate run: the triggered
month-1 row of CA, to which the characterization applies. -/
theorem C2_first_trigger_min_witness :
    exRowLateB ∈ (analyzeNexus exTxnsLate exCfgRevert).1 ∧
    ((∀ t : Int, exRowLateB.first_trigger_month = some t →
        t ≤ exRowLateB.month_year ∧
        (∃ r0 ∈ (analyzeNexus exTxnsLate exCfgRevert).1,
          r0.state = exRowLateB.state ∧
          r0.month_year = t ∧ r0.nexus_triggered = true) ∧
        (∀ r' ∈ (analyzeNexus exTxnsLate exCfgRevert).1,
          r'.state = exRowLateB.state →
          r'.month_year < t → r'.nexus_triggered = false) ∧
        (∀ r' ∈ (analyzeNexus exTxnsLate exCfgRevert).1,
          r'.state = exRowLateB.state →
          t ≤ r'.month_year → r'.first_trigger_month = some t)) ∧
      (exRowLateB.first_trigger_month = none ↔
        ∀ r' ∈ (analyzeNexus exTxnsLate exCfgRevert).1,
          r'.state = exRowLateB.state →
          r'.month_year ≤ exRowLateB.month_year →
          r'.nexus_triggered = false)) := by
  have hB : exRowLateB ∈ (analyzeNexus exTxnsLate exCfgRevert).1 := by
    rw [exLate_eval]; simp [exRowsLate]
  exact ⟨hB, C2_first_trigger_min exTxnsLate exCfgRevert exRowLateB hB⟩

/-! ## Claim C3 -/

/-- C3 as stated is false on the code: rolling_4q is not one of the four
enumerated rules, yet for it the per-row evaluation silently computes the
rolling-12-month basis (hardcoded 12-month window, only a debug log) with
no error-collector warning and a nonzero basis. -/
theorem C3_counterexample :
    "rolling_4q" ∉ (["rolling_12m", "calendar_prev_curr", "calendar_prev",
      "none"] : List String) ∧
    calcRollingAggregates exTxnsOne "rolling_4q" 12 0 = ((100, 1), none) := by
  constructor
  · decide
  · unfold calcRollingAggregates
    rw [if_neg (by decide), if_neg (by decide), if_neg (by decide),
      if_neg (by decide), if_pos rfl]
    norm_num [exTxnsOne, windowTxns, sumSales, countDistinct]

/-- C3 (amended): the per-row evaluator recognizes six rule strings, not
four.  For a rule outside rolling_12m, calendar_prev_curr, calendar_prev,
rolling_4q, accounting_year and none, every evaluated month with data
uses basis 0/0 and hands a warning to the error collector; rolling_4q,
however, silently falls back to the rolling-12-month basis (with a
hardcoded 12-month window) and produces no collector warning. -/
theorem C3_unsupported_rule (stateTxns : List Txn) (rule : String)
    (months p : Int) (hne : stateTxns.isEmpty = false)
    (hrule : rule ∉ (["rolling_12m", "calendar_prev_curr", "calendar_prev",
      "rolling_4q", "accounting_year", "none"] : List String)) :
    calcRollingAggregates stateTxns rule months p =
      ((0, 0), some ("Unsupported lookback rule " ++ rule ++
        " found in config. Calculation defaulted to 0.")) ∧
    calcRollingAggregates stateTxns "rolling_4q" months p =
      ((calcRollingAggregates stateTxns "rolling_12m" 12 p).1, none) := by
  simp only [List.mem_cons, List.not_mem_nil, or_false, not_or] at hrule
  obtain ⟨h1, h2, h3, h4, h5, h6⟩ := hrule
  have hguard : ¬(stateTxns.isEmpty = true) := by simp [hne]
  constructor
  · unfold calcRollingAggregates
    rw [if_neg hguard, if_neg h1, if_neg h2, if_neg h3, if_neg h4, if_neg h5,
      if_neg h6]
  · have h4q : calcRollingAggregates stateTxns "rolling_4q" months p =
        ((sumSales (windowTxns stateTxns (p - 11) p),
          countDistinct (windowTxns stateTxns (p - 11) p)), none) := by
      unfold calcRollingAggregates
      rw [if_neg hguard, if_neg (by decide), if_neg (by decide),
        if_neg (by decide), if_pos rfl]
    have h12 : calcRollingAggregates stateTxns "rolling_12m" 12 p =
        ((sumSales (windowTxns stateTxns (p - 11) p),
          countDistinct (windowTxns stateTxns (p - 11) p)), none) := by
      unfold calcRollingAggregates
      rw [if_neg hguard, if_pos rfl]
      norm_num
    rw [h4q, h12]

/-- Witness for the amended C3: a one-transaction state with the rule
bogus_rule gets basis 0/0 plus the warning, while rolling_4q reproduces
the rolling-12m basis with no warning. -/
theorem C3_unsupported_rule_witness :
    exTxnsOne.isEmpty = false ∧
    "bogus_rule" ∉ (["rolling_12m", "calendar_prev_curr", "calendar_prev",
      "rolling_4q", "accounting_year", "none"] : List String) ∧
    (calcRollingAggregates exTxnsOne "bogus_rule" 12 0 =
      ((0, 0), some ("Unsupported lookback rule bogus_rule found in config." ++
        " Calculation defaulted to 0.")) ∧
    calcRollingAggregates exTxnsOne "rolling_4q" 12 0 =
      ((calcRollingAggregates exTxnsOne "rolling_12m" 12 0).1, none)) :=
  ⟨rfl, by decide,
    (C3_unsupported_rule exTxnsOne "bogus_rule" 12 0 rfl (by decide)).1,
    (C3_unsupported_rule exTxnsOne "bogus_rule" 12 0 rfl (by decide)).2⟩

/-! ## Claim C4 -/

/-- C4 as stated is false on the code: the interest helper guards against
missing inputs and negative rate or months-late, but not against a
negative tax amount, so its result can be negative. -/
theorem C4_counterexample :
    calcInterest (some (-100)) (some (1 / 20)) (some 3) < 0 := by
  norm_num [calcInterest]

/-- C4 (amended): the interest helper returns tax x (annual_rate / 12) x
months_late, returns 0 when any input is missing or the rate or
months-late is negative, and is never negative whenever the tax amount is
non-negative; a negative tax amount yields negative interest. -/
theorem C4_interest_guards :
    (∀ t r m : Rat, 0 ≤ r → 0 ≤ m →
      calcInterest (some t) (some r) (some m) = t * (r / 12) * m) ∧
    (∀ tax rate ml : Option Rat, tax = none ∨ rate = none ∨ ml = none →
      calcInterest tax rate ml = 0) ∧
    (∀ t r m : Rat, r < 0 ∨ m < 0 → calcInterest (some t) (some r) (some m) = 0) ∧
    (∀ t : Rat, 0 ≤ t → ∀ rate ml : Option Rat,
      0 ≤ calcInterest (some t) rate ml) := by
  refine ⟨?_, ?_, ?_, ?_⟩
  · intro t r m hr hm
    simp [calcInterest, not_lt.mpr hr, not_lt.mpr hm]
  · rintro tax rate ml (rfl | rfl | rfl)
    · rfl
    · cases tax <;> rfl
    · cases tax <;> cases rate <;> rfl
  · intro t r m h
    simp only [calcInterest]
    rw [if_pos h]
  · intro t ht rate ml
    cases rate with
    | none => simp [calcInterest]
    | some r =>
      cases ml with
      | none => simp [calcInterest]
      | some m =>
        simp only [calcInterest]
        by_cases h : r < 0 ∨ m < 0
        · rw [if_pos h]
        · rw [if_neg h]
          push_neg at h
          exact mul_nonneg
            (mul_nonneg ht (div_nonneg h.1 (by norm_num))) h.2

/-- Witness for the amended C4 at concrete inputs. -/
theorem C4_interest_guards_witness :
    (0 : Rat) ≤ 1 / 20 ∧ (0 : Rat) ≤ 3 ∧
    calcInterest (some 100) (some (1 / 20)) (some 3) =
      100 * ((1 / 20) / 12) * 3 ∧
    calcInterest none (some 1) (some 1) = 0 ∧
    calcInterest (some 100) (some (-1)) (some 3) = 0 ∧
    0 ≤ calcInterest (some 100) (some (1 / 20)) (some 3) :=
  ⟨by norm_num, by norm_num,
    C4_interest_guards.1 100 (1 / 20) 3 (by norm_num) (by norm_num),
    C4_interest_guards.2.1 none (some 1) (some 1) (Or.inl rfl),
    C4_interest_guards.2.2.1 100 (-1) 3 (Or.inl (by norm_num)),
    C4_interest_guards.2.2.2 100 (by norm_num) (some (1 / 20)) (some 3)⟩

/-! ## Block extraction from concatenated per-key outputs -/

/-- Generic extraction lemma: in a concatenation of per-key blocks whose
rows carry their key and whose key list is duplicate-free, filtering on
one key isolates that key's block. -/
theorem filter_flatten_map {α β : Type} (key : α → String) (tag : β → String)
    (f : β → List α) : ∀ (l : List β) (b : β),
    (∀ b' ∈ l, ∀ x ∈ f b', key x = tag b') →
    (l.map tag).Nodup → b ∈ l → ∀ (q : α → Bool),
    ((l.map f).flatten.filter (fun x => decide (key x = tag b) && q x)) =
      (f b).filter (fun x => decide (key x = tag b) && q x) := by
  intro l
  induction l with
  | nil => intro b _ _ hb; cases hb
  | cons c l ih =>
    intro b hf hn hb q
    simp only [List.map_cons, List.flatten_cons, List.filter_append]
    obtain ⟨hc, hn'⟩ := List.nodup_cons.mp hn
    rcases List.mem_cons.mp hb with rfl | hb'
    · have htail : (((l.map f).flatten).filter
          (fun x => decide (key x = tag b) && q x)) = [] := by
        rw [List.filter_eq_nil_iff]
        intro x hx
        obtain ⟨xs, hxs, hxmem⟩ := List.mem_flatten.mp hx
        obtain ⟨b', hb', rfl⟩ := List.mem_map.mp hxs
        have hkey := hf b' (List.mem_cons_of_mem _ hb') x hxmem
        have hneq : ¬(tag b' = tag b) := fun hcontra => by
          rw [← hcontra] at hc
          exact hc (List.mem_map_of_mem tag hb')
        simp [hkey, hneq]
      rw [htail, List.append_nil]
    · have hne : ¬(tag c = tag b) := fun hcontra => by
        rw [hcontra] at hc
        exact hc (List.mem_map_of_mem tag hb')
      have hhead : ((f c).filter (fun x => decide (key x = tag b) && q x)) = [] := by
        rw [List.filter_eq_nil_iff]
        intro x hx
        simp [hf c (List.mem_cons_self _ _) x hx, hne]
      rw [hhead, List.nil_append]
      exact ih b (fun b' hb'' => hf b' (List.mem_cons_of_mem _ hb'')) hn' hb' q

theorem statesOf_nodup (txns : List Txn) : (statesOf txns).Nodup := by
  unfold statesOf
  exact ((List.perm_insertionSort _ _).nodup_iff).mpr (List.nodup_dedup _)

theorem analyzeState_state {txns : List Txn} {cfg : String → Option StateParams}
    {periods : List Int} {st : String} :
    ∀ r ∈ (analyzeState txns cfg periods st).1, r.state = st := by
  intro r hr
  obtain ⟨prm, _, heq⟩ := mem_analyzeState hr
  rw [heq] at hr
  exact nexusRows_state _ prm st _ none r hr

theorem analyzeNexus_flatten (txns : List Txn)
    (cfg : String → Option StateParams) (hne : txns.isEmpty = false) :
    (analyzeNexus txns cfg).1 =
      ((statesOf txns).map
        (fun st => (analyzeState txns cfg (analysisPeriods txns) st).1)).flatten := by
  unfold analyzeNexus
  rw [if_neg (by simp [hne])]
  simp only [List.map_map]
  rfl

/-! ## Claim C8 -/

/-- C8 as stated is false on the code: a state with a configuration
entry, a non-null threshold and a rule other than none can still produce
zero rows — when its config excludes marketplace sales and all of its
data is marketplace-channel, the threshold data comes up empty and the
state is skipped entirely (src line: if state_df_for_thresholds.empty:
continue). -/
theorem C8_counterexample :
    exCfgMkt "CA" = some exPrmMkt ∧
    exPrmMkt.sales_threshold ≠ none ∧ exPrmMkt.lookback_rule ≠ "none" ∧
    0 ∈ analysisPeriods exTxnsMkt ∧
    analyzeNexus exTxnsMkt exCfgMkt = ([], []) := by
  refine ⟨rfl, by decide, by decide, by decide, ?_⟩
  decide

/-- C8 (amended): a state with a configuration entry, at least one
non-null threshold, a rule other than none, AND non-empty threshold data
after the marketplace filter gets exactly one summary row for every month
of the full analysis grid (earliest through latest month of the whole
input). -/
theorem C8_one_row_per_month (txns : List Txn)
    (cfg : String → Option StateParams) (st : String) (prm : StateParams)
    (m : Int) (hcfg : cfg st = some prm)
    (hth : ¬(prm.sales_threshold = none ∧ prm.transaction_threshold = none))
    (hrule : prm.lookback_rule ≠ "none")
    (hdata : (stateFiltered txns st prm).isEmpty = false)
    (hm : m ∈ analysisPeriods txns) :
    ((analyzeNexus txns cfg).1.filter
      (fun r => decide (r.state = st) && decide (r.month_year = m))).length = 1 := by
  -- the state's data is nonempty, hence so is the input
  obtain ⟨t, htmem, htpred⟩ : ∃ t ∈ txns, t.state = st := by
    have : stateFiltered txns st prm ≠ [] := by
      intro hcontra
      rw [hcontra] at hdata
      simp at hdata
    obtain ⟨t, htmem⟩ := List.exists_mem_of_ne_nil _ this
    unfold stateFiltered at htmem
    by_cases hinc : prm.marketplace_threshold_inclusion
    · rw [if_pos hinc] at htmem
      have := List.mem_filter.mp htmem
      exact ⟨t, this.1, by simpa using this.2⟩
    · rw [if_neg hinc] at htmem
      have := List.mem_filter.mp htmem
      refine ⟨t, this.1, ?_⟩
      have h2 := this.2
      simp at h2
      exact h2.1
  have hne : txns.isEmpty = false := by
    cases txns with
    | nil => cases htmem
    | cons a l => rfl
  have hstmem : st ∈ statesOf txns := by
    unfold statesOf
    rw [(List.perm_insertionSort _ _).mem_iff, List.mem_dedup]
    rw [← htpred]
    exact List.mem_map_of_mem _ htmem
  have hblock : (analyzeState txns cfg (analysisPeriods txns) st).1 =
      nexusRows (stateFiltered txns st prm) prm st none (analysisPeriods txns) :=
    analyzeState_rows txns cfg (analysisPeriods txns) st prm hcfg
      (by simp only [not_or]; exact ⟨hth, hrule⟩) (by simp [hdata])
  -- isolate the block
  rw [analyzeNexus_flatten txns cfg hne]
  have hext := filter_flatten_map (fun r => r.state) (fun s => s)
    (fun s => (analyzeState txns cfg (analysisPeriods txns) s).1)
    (statesOf txns) st
    (fun s hs x hx => analyzeState_state x hx)
    (by simpa using statesOf_nodup txns) hstmem
    (fun r => decide (r.month_year = m))
  rw [hext, hblock]
  -- inside the block every row has the right state
  have hcongr : List.filter
      (fun r => decide (r.state = st) && decide (r.month_year = m))
      (nexusRows (stateFiltered txns st prm) prm st none (analysisPeriods txns)) =
      List.filter (fun r => decide (r.month_year = m))
        (nexusRows (stateFiltered txns st prm) prm st none (analysisPeriods txns)) :=
    List.filter_congr (fun r hr => by
      simp [nexusRows_state _ prm st _ none r hr])
  rw [hcongr]
  -- count rows at month m via the month projection
  rw [← List.countP_eq_length_filter]
  have hcount : (nexusRows (stateFiltered txns st prm) prm st none
      (analysisPeriods txns)).countP (fun r => decide (r.month_year = m)) =
      ((nexusRows (stateFiltered txns st prm) prm st none
        (analysisPeriods txns)).map (fun r => r.month_year)).count m := by
    rw [List.count_eq_countP, List.countP_map]
    rfl
  rw [hcount, nexusRows_map_month]
  exact List.count_eq_one_of_mem (analysisPeriods_nodup txns) hm

/-- Witness for the amended C8 on the exTxnsRevert run: CA is configured
with a sales threshold and included data, and month 0 of the grid has
exactly one CA row. -/
theorem C8_one_row_per_month_witness :
    exCfgRevert "CA" = some exPrmRevert ∧
    ¬(exPrmRevert.sales_threshold = none ∧
      exPrmRevert.transaction_threshold = none) ∧
    exPrmRevert.lookback_rule ≠ "none" ∧
    (stateFiltered exTxnsRevert "CA" exPrmRevert).isEmpty = false ∧
    0 ∈ analysisPeriods exTxnsRevert ∧
    ((analyzeNexus exTxnsRevert exCfgRevert).1.filter
      (fun r => decide (r.state = "CA") && decide (r.month_year = 0))).length = 1 :=
  ⟨rfl, by decide, by decide, by decide, by decide,
    C8_one_row_per_month exTxnsRevert exCfgRevert "CA" exPrmRevert 0 rfl
      (by decide) (by decide) (by decide) (by decide)⟩

/-! ## Structural lemmas about the exposure calculator -/

theorem foldl_max_le_init : ∀ (l : List Int) (a : Int), a ≤ l.foldl max a := by
  intro l
  induction l with
  | nil => intro a; simp
  | cons b l ih =>
    intro a
    simp only [List.foldl_cons]
    exact le_trans (le_max_left a b) (ih (max a b))

theorem mem_le_foldl_max : ∀ (l : List Int) (a x : Int), x ∈ l → x ≤ l.foldl max a := by
  intro l
  induction l with
  | nil => intro a x hx; cases hx
  | cons b l ih =>
    intro a x hx
    simp only [List.foldl_cons]
    rcases List.mem_cons.mp hx with rfl | hx'
    · exact le_trans (le_max_right a x) (foldl_max_le_init l (max a x))
    · exact ih (max a b) x hx'

theorem int_le_max?_getD (l : List Int) (x : Int) (hx : x ∈ l) (d : Int) :
    x ≤ l.max?.getD d := by
  cases l with
  | nil => cases hx
  | cons a as =>
    simp only [List.max?_cons', Option.getD_some]
    rcases List.mem_cons.mp hx with rfl | hx'
    · exact foldl_max_le_init as x
    · exact mem_le_foldl_max as a x hx'

theorem ft_nexus_ne {nexus : List NexusRow} {pr : String × Int}
    (h : pr ∈ firstTriggers nexus) : nexus.isEmpty = false := by
  cases nexus with
  | nil => simp [firstTriggers] at h
  | cons a l => rfl

theorem ft_ne {nexus : List NexusRow} {pr : String × Int}
    (h : pr ∈ firstTriggers nexus) : (firstTriggers nexus).isEmpty = false := by
  cases hf : firstTriggers nexus with
  | nil => rw [hf] at h; cases h
  | cons a l => rfl

theorem monthly_sales_ne {sales : List SalesRow} {e : String × Int × Rat}
    (h : e ∈ monthlyTaxable sales) : sales.isEmpty = false := by
  cases sales with
  | nil => simp [monthlyTaxable] at h
  | cons a l => rfl

theorem monthly_taxable_ne {sales : List SalesRow} {e : String × Int × Rat}
    (h : e ∈ monthlyTaxable sales) :
    (sales.filter (fun x => !x.is_exempt)).isEmpty = false := by
  cases hf : sales.filter (fun x => !x.is_exempt) with
  | nil =>
    exfalso
    simp only [monthlyTaxable, hf] at h
    simp at h
  | cons a l => rfl

theorem monthly_ne {sales : List SalesRow} {e : String × Int × Rat}
    (h : e ∈ monthlyTaxable sales) : (monthlyTaxable sales).isEmpty = false := by
  cases hf : monthlyTaxable sales with
  | nil => rw [hf] at h; cases h
  | cons a l => rfl

theorem firstTriggers_fst_nodup (nexus : List NexusRow) :
    ((firstTriggers nexus).map Prod.fst).Nodup := by
  unfold firstTriggers
  rw [List.map_map]
  rw [show (Prod.fst ∘ fun s => (s,
    ((((nexus.filterMap (fun r =>
      r.first_trigger_month.map (fun t => (r.state, t)))).dedup.filter
      (fun pr => decide (pr.1 = s))).map Prod.snd).min?).getD 0)) =
    (id : String → String) from rfl, List.map_id]
  exact List.nodup_dedup _

theorem firstTriggers_uniq {nexus : List NexusRow} {s : String} {t1 t2 : Int}
    (h1 : (s, t1) ∈ firstTriggers nexus) (h2 : (s, t2) ∈ firstTriggers nexus) :
    t1 = t2 := by
  have := List.inj_on_of_nodup_map (firstTriggers_fst_nodup nexus) h1 h2 rfl
  exact congrArg Prod.snd this

theorem mem_stateChunk {monthly : List (String × Int × Rat)}
    {cfg : String → Option StateParams} {vd : String} {last : Int}
    {pr : String × Int} {r : ExposureRow}
    (hr : r ∈ (stateChunk monthly cfg vd last pr).1) :
    r.state = pr.1 ∧ ∃ e ∈ monthly, e.1 = pr.1 ∧ pr.2 + 1 ≤ e.2.1 ∧
      r.month_year = e.2.1 := by
  unfold stateChunk at hr
  cases hcfg : cfg pr.1 with
  | none => rw [hcfg] at hr; simp at hr
  | some prm =>
    rw [hcfg] at hr
    simp only at hr
    cases hrate : taxRateCheck pr.1 prm with
    | error msg => rw [hrate] at hr; simp at hr
    | ok rate =>
      rw [hrate] at hr
      simp only at hr
      by_cases hrows : (monthly.filter (fun e =>
          decide (e.1 = pr.1) && decide (pr.2 + 1 ≤ e.2.1))).isEmpty = true
      · rw [if_pos hrows] at hr; simp at hr
      · rw [if_neg hrows] at hr
        have main : ∀ (f : String × Int × Rat → ExposureRow),
            (∀ e, (f e).state = pr.1) → (∀ e, (f e).month_year = e.2.1) →
            r ∈ (monthly.filter (fun e =>
              decide (e.1 = pr.1) && decide (pr.2 + 1 ≤ e.2.1))).map f →
            r.state = pr.1 ∧ ∃ e ∈ monthly, e.1 = pr.1 ∧ pr.2 + 1 ≤ e.2.1 ∧
              r.month_year = e.2.1 := by
          intro f hfs hfm hmem
          obtain ⟨e, he, rfl⟩ := List.mem_map.mp hmem
          have hef := List.mem_filter.mp he
          have hconds := hef.2
          simp only [Bool.and_eq_true, decide_eq_true_eq] at hconds
          exact ⟨hfs e, e, hef.1, hconds.1, hconds.2, hfm e⟩
        by_cases hvd : vd = "Estimate"
        · rw [if_pos hvd] at hr
          cases hv : validateVda prm with
          | none =>
            rw [hv] at hr
            simp only at hr
            exact main _ (fun e => rfl) (fun e => rfl) hr
          | some triple =>
            obtain ⟨lb, ir, prr⟩ := triple
            rw [hv] at hr
            simp only at hr
            exact main _ (fun e => rfl) (fun e => rfl) hr
        · rw [if_neg hvd] at hr
          exact main _ (fun e => rfl) (fun e => rfl) hr

theorem stateChunk_state {monthly : List (String × Int × Rat)}
    {cfg : String → Option StateParams} {vd : String} {last : Int}
    {pr : String × Int} {r : ExposureRow}
    (hr : r ∈ (stateChunk monthly cfg vd last pr).1) : r.state = pr.1 :=
  (mem_stateChunk hr).1

theorem mem_calculateExposure {sales : List SalesRow} {nexus : List NexusRow}
    {cfg : String → Option StateParams} {vd : String} {r : ExposureRow}
    (hr : r ∈ (calculateExposure sales nexus cfg vd).1) :
    ∃ pr ∈ firstTriggers nexus,
      r ∈ (stateChunk (monthlyTaxable sales) cfg vd (lastDataMonth sales) pr).1 := by
  unfold calculateExposure at hr
  split_ifs at hr
  · simp at hr
  · simp at hr
  · simp at hr
  · simp at hr
  · simp at hr
  · simp only [List.mem_flatten, List.mem_map] at hr
    obtain ⟨l, ⟨c, ⟨pr, hpr, rfl⟩, rfl⟩, hrl⟩ := hr
    exact ⟨pr, hpr, hrl⟩

theorem stateChunk_sub {sales : List SalesRow} {nexus : List NexusRow}
    {cfg : String → Option StateParams} {vd : String} {pr : String × Int}
    {r : ExposureRow} (hpr : pr ∈ firstTriggers nexus)
    (h1 : sales.isEmpty = false)
    (h3 : (sales.filter (fun x => !x.is_exempt)).isEmpty = false)
    (h5 : (monthlyTaxable sales).isEmpty = false)
    (hr : r ∈ (stateChunk (monthlyTaxable sales) cfg vd (lastDataMonth sales) pr).1) :
    r ∈ (calculateExposure sales nexus cfg vd).1 := by
  unfold calculateExposure
  rw [if_neg (by simp [h1]), if_neg (by simp [ft_nexus_ne hpr]),
    if_neg (by simp [h3]), if_neg (by simp [ft_ne hpr]),
    if_neg (by simp [h5])]
  simp only [List.mem_flatten, List.mem_map]
  exact ⟨_, ⟨_, ⟨pr, hpr, rfl⟩, rfl⟩, hr⟩

/-- Chunk contents under a valid config and tax rate: the (state, month)
pairs of a state's chunk are exactly the state's aggregate months
strictly after the trigger month, in every branch. -/
theorem stateChunk_pairs (monthly : List (String × Int × Rat))
    (cfg : String → Option StateParams) (vd : String) (last : Int)
    (pr : String × Int) (prm : StateParams) (rate : Rat)
    (hcfg : cfg pr.1 = some prm)
    (hrate : taxRateCheck pr.1 prm = Except.ok rate) :
    ((stateChunk monthly cfg vd last pr).1.map (fun r => (r.state, r.month_year))) =
      ((monthly.filter (fun e => decide (e.1 = pr.1) &&
        decide (pr.2 + 1 ≤ e.2.1))).map (fun e => (pr.1, e.2.1))) := by
  unfold stateChunk
  rw [hcfg]
  simp only
  rw [hrate]
  simp only
  by_cases hrows : (monthly.filter (fun e =>
      decide (e.1 = pr.1) && decide (pr.2 + 1 ≤ e.2.1))).isEmpty = true
  · rw [if_pos hrows]
    have : (monthly.filter (fun e =>
        decide (e.1 = pr.1) && decide (pr.2 + 1 ≤ e.2.1))) = [] := by
      cases hf : monthly.filter (fun e =>
        decide (e.1 = pr.1) && decide (pr.2 + 1 ≤ e.2.1))
      · rfl
      · rw [hf] at hrows; simp at hrows
    rw [this]
    rfl
  · rw [if_neg hrows]
    by_cases hvd : vd = "Estimate"
    · rw [if_pos hvd]
      cases hv : validateVda prm with
      | none =>
        simp only
        rw [List.map_map]
        exact List.map_congr_left (fun e he => rfl)
      | some triple =>
        obtain ⟨lb, ir, prr⟩ := triple
        simp only
        rw [List.map_map]
        exact List.map_congr_left (fun e he => rfl)
    · rw [if_neg hvd]
      rw [List.map_map]
      exact List.map_congr_left (fun e he => rfl)

/-! ## Claim C7 -/

/-- C7: exposure rows for a triggered state start strictly after that
state's first trigger month and run through the last month present in
the taxable-sales aggregate: every output row's month exceeds the
state's trigger month and is at most the aggregate's last month, and
(for a state with valid config and tax rate) every aggregate month of
the state strictly after the trigger month yields an output row. -/
theorem C7_exposure_window (sales : List SalesRow) (nexus : List NexusRow)
    (cfg : String → Option StateParams) (vd : String) :
    (∀ r ∈ (calculateExposure sales nexus cfg vd).1, ∀ t : Int,
      (r.state, t) ∈ firstTriggers nexus →
      t < r.month_year ∧ r.month_year ≤ lastDataMonth sales) ∧
    (∀ (s : String) (t : Int) (prm : StateParams) (rate : Rat),
      (s, t) ∈ firstTriggers nexus → cfg s = some prm →
      taxRateCheck s prm = Except.ok rate →
      ∀ e ∈ monthlyTaxable sales, e.1 = s → t < e.2.1 →
      ∃ r ∈ (calculateExposure sales nexus cfg vd).1,
        r.state = s ∧ r.month_year = e.2.1) := by
  constructor
  · intro r hr t hft
    obtain ⟨pr, hpr, hchunk⟩ := mem_calculateExposure hr
    obtain ⟨hstate, e, hemem, hes, helt, hem⟩ := mem_stateChunk hchunk
    have ht : t = pr.2 := by
      rw [hstate] at hft
      have := firstTriggers_uniq hft (by rw [← Prod.mk.eta (p := pr)] at hpr; exact hpr)
      exact this
    constructor
    · omega
    · rw [hem]
      unfold lastDataMonth
      exact int_le_max?_getD _ _ (List.mem_map_of_mem _ hemem) 0
  · intro s t prm rate hft hcfg hrate e hemem hes helt
    have hepair : e ∈ (monthlyTaxable sales).filter (fun e =>
        decide (e.1 = s) && decide (t + 1 ≤ e.2.1)) := by
      rw [List.mem_filter]
      exact ⟨hemem, by simp [hes]; omega⟩
    have hpairs := stateChunk_pairs (monthlyTaxable sales) cfg vd
      (lastDataMonth sales) (s, t) prm rate hcfg hrate
    have : (s, e.2.1) ∈ ((stateChunk (monthlyTaxable sales) cfg vd
        (lastDataMonth sales) (s, t)).1.map (fun r => (r.state, r.month_year))) := by
      rw [hpairs]
      exact List.mem_map.mpr ⟨e, hepair, rfl⟩
    obtain ⟨r, hrchunk, hrpair⟩ := List.mem_map.mp this
    refine ⟨r, stateChunk_sub hft (monthly_sales_ne hemem)
      (monthly_taxable_ne hemem) (monthly_ne hemem) hrchunk, ?_, ?_⟩
    · exact congrArg Prod.fst hrpair
    · exact congrArg Prod.snd hrpair

/-! ## Branch resolution for a state's exposure chunk -/

theorem stateChunk_empty (monthly : List (String × Int × Rat))
    (cfg : String → Option StateParams) (vd : String) (last : Int)
    (pr : String × Int) (prm : StateParams) (rate : Rat)
    (hcfg : cfg pr.1 = some prm)
    (hrate : taxRateCheck pr.1 prm = Except.ok rate)
    (hrows : (monthly.filter (fun e => decide (e.1 = pr.1) &&
      decide (pr.2 + 1 ≤ e.2.1))).isEmpty = true) :
    stateChunk monthly cfg vd last pr = ([], []) := by
  unfold stateChunk
  rw [hcfg]
  simp only
  rw [hrate]
  simp only
  rw [if_pos hrows]

theorem stateChunk_invalid (monthly : List (String × Int × Rat))
    (cfg : String → Option StateParams) (last : Int) (pr : String × Int)
    (prm : StateParams) (rate : Rat) (hcfg : cfg pr.1 = some prm)
    (hrate : taxRateCheck pr.1 prm = Except.ok rate)
    (hvda : validateVda prm = none)
    (hrows : (monthly.filter (fun e => decide (e.1 = pr.1) &&
      decide (pr.2 + 1 ≤ e.2.1))).isEmpty = false) :
    stateChunk monthly cfg "Estimate" last pr =
      ((monthly.filter (fun e => decide (e.1 = pr.1) &&
        decide (pr.2 + 1 ≤ e.2.1))).map
        (fun e => baseRow pr.1 e.2.1 e.2.2 rate),
       ["Invalid VDA parameters for state " ++ pr.1 ++
         " in config. Skipping VDA estimation for this state."]) := by
  unfold stateChunk
  rw [hcfg]
  simp only
  rw [hrate]
  simp only
  rw [if_neg (by simp [hrows]), if_pos trivial, hvda]

theorem stateChunk_valid (monthly : List (String × Int × Rat))
    (cfg : String → Option StateParams) (last : Int) (pr : String × Int)
    (prm : StateParams) (rate : Rat) (lb : Int) (ir prr : Rat)
    (hcfg : cfg pr.1 = some prm)
    (hrate : taxRateCheck pr.1 prm = Except.ok rate)
    (hvda : validateVda prm = some (lb, ir, prr))
    (hrows : (monthly.filter (fun e => decide (e.1 = pr.1) &&
      decide (pr.2 + 1 ≤ e.2.1))).isEmpty = false) :
    stateChunk monthly cfg "Estimate" last pr =
      ((monthly.filter (fun e => decide (e.1 = pr.1) &&
        decide (pr.2 + 1 ≤ e.2.1))).map
        (fun e => vdaRow last (last - (lb - 1)) ir prr prm.vda_penalty_waived
          pr.1 e.2.1 e.2.2 rate), []) := by
  unfold stateChunk
  rw [hcfg]
  simp only
  rw [hrate]
  simp only
  rw [if_neg (by simp [hrows]), if_pos trivial, hvda]

/-- Extraction: filtering the exposure output on one triggered state's
code isolates that state's chunk. -/
theorem exposure_filter_state (sales : List SalesRow) (nexus : List NexusRow)
    (cfg : String → Option StateParams) (vd : String) (s : String) (t : Int)
    (hft : (s, t) ∈ firstTriggers nexus)
    (h1 : sales.isEmpty = false)
    (h3 : (sales.filter (fun x => !x.is_exempt)).isEmpty = false)
    (h5 : (monthlyTaxable sales).isEmpty = false) :
    ((calculateExposure sales nexus cfg vd).1.filter
      (fun r => decide (r.state = s))) =
      (stateChunk (monthlyTaxable sales) cfg vd (lastDataMonth sales) (s, t)).1 := by
  unfold calculateExposure
  rw [if_neg (by simp [h1]), if_neg (by simp [ft_nexus_ne hft]),
    if_neg (by simp [h3]), if_neg (by simp [ft_ne hft]),
    if_neg (by simp [h5])]
  dsimp only
  have hshape : (((firstTriggers nexus).map (fun pr =>
      stateChunk (monthlyTaxable sales) cfg vd (lastDataMonth sales) pr)).map
        Prod.fst).flatten =
      ((firstTriggers nexus).map (fun pr =>
        (stateChunk (monthlyTaxable sales) cfg vd (lastDataMonth sales) pr).1)).flatten := by
    rw [List.map_map]
    rfl
  have hext := filter_flatten_map (fun r : ExposureRow => r.state) Prod.fst
    (fun pr => (stateChunk (monthlyTaxable sales) cfg vd (lastDataMonth sales) pr).1)
    (firstTriggers nexus) (s, t)
    (fun pr _ x hx => stateChunk_state hx)
    (firstTriggers_fst_nodup nexus) hft (fun _ => true)
  simp only [Bool.and_true] at hext
  rw [hshape, hext]
  exact List.filter_eq_self.mpr (fun x hx => by simp [stateChunk_state hx])

theorem stateChunk_warn_sub {sales : List SalesRow} {nexus : List NexusRow}
    {cfg : String → Option StateParams} {vd : String} {pr : String × Int}
    {w : String} (hpr : pr ∈ firstTriggers nexus)
    (h1 : sales.isEmpty = false)
    (h3 : (sales.filter (fun x => !x.is_exempt)).isEmpty = false)
    (h5 : (monthlyTaxable sales).isEmpty = false)
    (hw : w ∈ (stateChunk (monthlyTaxable sales) cfg vd (lastDataMonth sales) pr).2) :
    w ∈ (calculateExposure sales nexus cfg vd).2 := by
  unfold calculateExposure
  rw [if_neg (by simp [h1]), if_neg (by simp [ft_nexus_ne hpr]),
    if_neg (by simp [h3]), if_neg (by simp [ft_ne hpr]),
    if_neg (by simp [h5])]
  simp only [List.mem_flatten, List.mem_map]
  exact ⟨_, ⟨_, ⟨pr, hpr, rfl⟩, rfl⟩, hw⟩

/-! ## Rate and parameter sign facts -/

theorem taxRateCheck_nonneg {st : String} {prm : StateParams} {rate : Rat}
    (h : taxRateCheck st prm = Except.ok rate) : 0 ≤ rate := by
  unfold taxRateCheck at h
  cases htr : prm.tax_rate with
  | none => rw [htr] at h; cases h
  | some cn =>
    cases cn with
    | nonNumeric s => rw [htr] at h; cases h
    | num q =>
      rw [htr] at h
      simp only at h
      by_cases hq : q < 0
      · rw [if_pos hq] at h; cases h
      · rw [if_neg hq] at h
        cases h
        exact not_lt.mp hq

theorem validateVda_nonneg {prm : StateParams} {lb : Int} {ir prr : Rat}
    (h : validateVda prm = some (lb, ir, prr)) :
    0 ≤ lb ∧ 0 ≤ ir ∧ 0 ≤ prr := by
  unfold validateVda at h
  cases h1 : parseVdaInt prm.vda_lookback_cap 36 with
  | none => rw [h1] at h; cases h
  | some lb' =>
    cases h2 : parseVdaRat prm.vda_interest_rate (1 / 20) with
    | none => rw [h1, h2] at h; cases h
    | some ir' =>
      cases h3 : parseVdaRat prm.standard_penalty_rate (1 / 4) with
      | none => rw [h1, h2, h3] at h; cases h
      | some prr' =>
        rw [h1, h2, h3] at h
        simp only at h
        by_cases hneg : lb' < 0 ∨ ir' < 0 ∨ prr' < 0
        · rw [if_pos hneg] at h; cases h
        · rw [if_neg hneg] at h
          push_neg at hneg
          cases h
          exact ⟨hneg.1, hneg.2.1, hneg.2.2⟩

/-! ## Evaluation lemmas for the concrete exposure runs -/

theorem exNexusCA_ft : firstTriggers exNexusCA = [("CA", 0)] := by decide

theorem exSalesNeg_monthly : monthlyTaxable exSalesNeg = [("CA", 1, -100)] := by
  norm_num [monthlyTaxable, exSalesNeg]

theorem exSalesPos_monthly : monthlyTaxable exSalesPos = [("CA", 1, 100)] := by
  norm_num [monthlyTaxable, exSalesPos]

theorem exSalesNeg_last : lastDataMonth exSalesNeg = 1 := by
  unfold lastDataMonth
  rw [exSalesNeg_monthly]
  rfl

theorem exSalesPos_last : lastDataMonth exSalesPos = 1 := by
  unfold lastDataMonth
  rw [exSalesPos_monthly]
  rfl

theorem exPrmExp_tax : taxRateCheck "CA" exPrmExp = Except.ok (7 / 100) := by
  norm_num [taxRateCheck, exPrmExp]

theorem exPrmExp_vda : validateVda exPrmExp = some (36, 1 / 20, 1 / 4) := by
  norm_num [validateVda, parseVdaInt, parseVdaRat, exPrmExp]

theorem exPrmVdaBad_tax : taxRateCheck "CA" exPrmVdaBad = Except.ok (7 / 100) := by
  norm_num [taxRateCheck, exPrmVdaBad]

theorem exPrmVdaBad_vda : validateVda exPrmVdaBad = none := by
  norm_num [validateVda, parseVdaInt, parseVdaRat, exPrmVdaBad]

/-! ## Claim C5 -/

/-- C5 as stated is false on the code: with the VDA window covering the
whole exposure window and the penalty waived, the per-month savings equal
estimated_tax x penalty_rate, which is negative for a net-credit month.
In the exSalesNeg run (one post-trigger month of -100 taxable sales,
lookback cap 36 over a 1-month window, penalty waived) the state's
summed savings are -7/4 < 0. -/
theorem C5_counterexample :
    ("CA", 0) ∈ firstTriggers exNexusCA ∧
    exPrmExp.vda_penalty_waived = true ∧
    validateVda exPrmExp = some (36, 1 / 20, 1 / 4) ∧
    lastDataMonth exSalesNeg - (36 - 1) ≤ 0 + 1 ∧
    (((calculateExposure exSalesNeg exNexusCA exCfgExp "Estimate").1.filter
      (fun r => decide (r.state = "CA"))).map
      (fun r => r.estimated_vda_savings)).sum < 0 := by
  refine ⟨by rw [exNexusCA_ft]; decide, rfl, exPrmExp_vda,
    by rw [exSalesNeg_last]; decide, ?_⟩
  rw [exposure_filter_state exSalesNeg exNexusCA exCfgExp "Estimate" "CA" 0
    (by rw [exNexusCA_ft]; decide) rfl rfl
    (by rw [exSalesNeg_monthly]; decide)]
  rw [stateChunk_valid (monthlyTaxable exSalesNeg) exCfgExp
    (lastDataMonth exSalesNeg) ("CA", 0) exPrmExp (7 / 100) 36 (1 / 20) (1 / 4)
    rfl exPrmExp_tax exPrmExp_vda (by rw [exSalesNeg_monthly]; decide)]
  rw [exSalesNeg_monthly, exSalesNeg_last]
  have hfilter : ([("CA", (1 : Int), (-100 : Rat))].filter (fun e =>
      decide (e.1 = ("CA", (0 : Int)).1) &&
        decide (("CA", (0 : Int)).2 + 1 ≤ e.2.1))) =
      [("CA", 1, -100)] := by decide
  rw [hfilter]
  norm_num [vdaRow, calcInterest, exPrmExp]

/-- C5 (amended): with VDA estimation on, a valid configuration, the
penalty waived and the VDA lookback window covering the whole exposure
window, a state's summed estimated_vda_savings is non-negative provided
additionally that the state's total taxable sales over the window rows is
non-negative (each in-window month contributes taxable x rate x
penalty_rate, which the code does not clamp for net-credit months). -/
theorem C5_vda_savings_nonneg (sales : List SalesRow) (nexus : List NexusRow)
    (cfg : String → Option StateParams) (s : String) (t : Int)
    (prm : StateParams) (rate : Rat) (lb : Int) (ir prr : Rat)
    (hft : (s, t) ∈ firstTriggers nexus)
    (hcfg : cfg s = some prm)
    (hrate : taxRateCheck s prm = Except.ok rate)
    (hvda : validateVda prm = some (lb, ir, prr))
    (hwaived : prm.vda_penalty_waived = true)
    (hcap : lastDataMonth sales - (lb - 1) ≤ t + 1)
    (hsum : 0 ≤ (((monthlyTaxable sales).filter (fun e =>
      decide (e.1 = s) && decide (t + 1 ≤ e.2.1))).map (fun e => e.2.2)).sum) :
    0 ≤ (((calculateExposure sales nexus cfg "Estimate").1.filter
      (fun r => decide (r.state = s))).map
      (fun r => r.estimated_vda_savings)).sum := by
  by_cases h1 : sales.isEmpty = true
  · unfold calculateExposure
    rw [if_pos h1]
    simp
  by_cases h3 : (sales.filter (fun x => !x.is_exempt)).isEmpty = true
  · unfold calculateExposure
    rw [if_neg (by simp [h1]), if_neg (by simp [ft_nexus_ne hft]), if_pos h3]
    simp
  by_cases h5 : (monthlyTaxable sales).isEmpty = true
  · unfold calculateExposure
    rw [if_neg (by simp [h1]), if_neg (by simp [ft_nexus_ne hft]),
      if_neg (by simp [h3]), if_neg (by simp [ft_ne hft]), if_pos h5]
    simp
  rw [exposure_filter_state sales nexus cfg "Estimate" s t hft
    (by simpa using h1) (by simpa using h3) (by simpa using h5)]
  by_cases hrows : ((monthlyTaxable sales).filter (fun e =>
      decide (e.1 = (s, t).1) && decide ((s, t).2 + 1 ≤ e.2.1))).isEmpty = true
  · rw [stateChunk_empty (monthlyTaxable sales) cfg "Estimate"
      (lastDataMonth sales) (s, t) prm rate hcfg hrate hrows]
    simp
  · rw [stateChunk_valid (monthlyTaxable sales) cfg (lastDataMonth sales)
      (s, t) prm rate lb ir prr hcfg hrate hvda (by simpa using hrows)]
    rw [hwaived, List.map_map]
    have hrw : ∀ e ∈ (monthlyTaxable sales).filter (fun e =>
        decide (e.1 = (s, t).1) && decide ((s, t).2 + 1 ≤ e.2.1)),
        ((fun r => r.estimated_vda_savings) ∘ (fun e =>
          vdaRow (lastDataMonth sales) (lastDataMonth sales - (lb - 1)) ir prr
            true (s, t).1 e.2.1 e.2.2 rate)) e = e.2.2 * (rate * prr) := by
      intro e he
      have hin : lastDataMonth sales - (lb - 1) ≤ e.2.1 := by
        have hcond := (List.mem_filter.mp he).2
        simp only [Bool.and_eq_true, decide_eq_true_eq] at hcond
        omega
      show (vdaRow (lastDataMonth sales) (lastDataMonth sales - (lb - 1)) ir prr
        true (s, t).1 e.2.1 e.2.2 rate).estimated_vda_savings =
        e.2.2 * (rate * prr)
      unfold vdaRow
      simp only [if_pos hin, if_true, if_pos trivial]
      ring
    rw [List.map_congr_left hrw]
    rw [List.sum_map_mul_right]
    exact mul_nonneg hsum
      (mul_nonneg (taxRateCheck_nonneg hrate) (validateVda_nonneg hvda).2.2)

/-- Witness for the amended C5 on the exSalesPos run (one post-trigger
month of +100 taxable sales): the summed savings are non-negative. -/
theorem C5_vda_savings_nonneg_witness :
    ("CA", 0) ∈ firstTriggers exNexusCA ∧
    exCfgExp "CA" = some exPrmExp ∧
    taxRateCheck "CA" exPrmExp = Except.ok (7 / 100) ∧
    validateVda exPrmExp = some (36, 1 / 20, 1 / 4) ∧
    exPrmExp.vda_penalty_waived = true ∧
    lastDataMonth exSalesPos - (36 - 1) ≤ 0 + 1 ∧
    0 ≤ (((monthlyTaxable exSalesPos).filter (fun e =>
      decide (e.1 = "CA") && decide ((0 : Int) + 1 ≤ e.2.1))).map
      (fun e => e.2.2)).sum ∧
    0 ≤ (((calculateExposure exSalesPos exNexusCA exCfgExp "Estimate").1.filter
      (fun r => decide (r.state = "CA"))).map
      (fun r => r.estimated_vda_savings)).sum := by
  have hf : ("CA", (0 : Int)) ∈ firstTriggers exNexusCA := by
    rw [exNexusCA_ft]; decide
  have hsum : 0 ≤ (((monthlyTaxable exSalesPos).filter (fun e =>
      decide (e.1 = "CA") && decide ((0 : Int) + 1 ≤ e.2.1))).map
      (fun e => e.2.2)).sum := by
    rw [exSalesPos_monthly]
    norm_num
  exact ⟨hf, rfl, exPrmExp_tax, exPrmExp_vda, rfl,
    by rw [exSalesPos_last]; decide, hsum,
    C5_vda_savings_nonneg exSalesPos exNexusCA exCfgExp "CA" 0 exPrmExp
      (7 / 100) 36 (1 / 20) (1 / 4) hf rfl exPrmExp_tax exPrmExp_vda rfl
      (by rw [exSalesPos_last]; decide) hsum⟩

/-! ## Claim C6 -/

/-- C6: with VDA estimation on, a state whose VDA parameters are invalid
(negative lookback cap, interest rate or penalty rate, or a non-numeric
value — exactly the cases on which validateVda fails) gets a warning
recorded and its exposure rows emitted with all eight VDA-related columns
zero, full-liability columns included (they are not computed in that
branch). -/
theorem C6_invalid_vda_zero_fill (sales : List SalesRow)
    (nexus : List NexusRow) (cfg : String → Option StateParams) (s : String)
    (t : Int) (prm : StateParams) (rate : Rat)
    (hft : (s, t) ∈ firstTriggers nexus)
    (hcfg : cfg s = some prm)
    (hrate : taxRateCheck s prm = Except.ok rate)
    (hvda : validateVda prm = none)
    (hrows : ((monthlyTaxable sales).filter (fun e =>
      decide (e.1 = s) && decide (t + 1 ≤ e.2.1))).isEmpty = false) :
    ("Invalid VDA parameters for state " ++ s ++
      " in config. Skipping VDA estimation for this state.") ∈
      (calculateExposure sales nexus cfg "Estimate").2 ∧
    ((calculateExposure sales nexus cfg "Estimate").1.filter
      (fun r => decide (r.state = s))) =
      (((monthlyTaxable sales).filter (fun e =>
        decide (e.1 = s) && decide (t + 1 ≤ e.2.1))).map
        (fun e => baseRow s e.2.1 e.2.2 rate)) ∧
    (∀ r ∈ (calculateExposure sales nexus cfg "Estimate").1, r.state = s →
      r.full_interest = 0 ∧ r.full_penalty = 0 ∧ r.full_liability = 0 ∧
      r.vda_tax = 0 ∧ r.vda_interest = 0 ∧ r.vda_penalty = 0 ∧
      r.vda_liability = 0 ∧ r.estimated_vda_savings = 0) := by
  have hwindow : ∃ e, e ∈ (monthlyTaxable sales).filter (fun e =>
      decide (e.1 = s) && decide (t + 1 ≤ e.2.1)) := by
    cases hf : (monthlyTaxable sales).filter (fun e =>
      decide (e.1 = s) && decide (t + 1 ≤ e.2.1)) with
    | nil => rw [hf] at hrows; simp at hrows
    | cons a l => exact ⟨a, List.mem_cons_self _ _⟩
  obtain ⟨e0, he0⟩ := hwindow
  have he0m : e0 ∈ monthlyTaxable sales := (List.mem_filter.mp he0).1
  have h1 := monthly_sales_ne he0m
  have h3 := monthly_taxable_ne he0m
  have h5 := monthly_ne he0m
  have hchunk := stateChunk_invalid (monthlyTaxable sales) cfg
    (lastDataMonth sales) (s, t) prm rate hcfg hrate hvda hrows
  have hfilter := exposure_filter_state sales nexus cfg "Estimate" s t hft h1 h3 h5
  refine ⟨?_, ?_, ?_⟩
  · exact stateChunk_warn_sub hft h1 h3 h5
      (by rw [hchunk]; exact List.mem_cons_self _ _)
  · rw [hfilter, hchunk]
  · intro r hr hrs
    have hrmem : r ∈ ((calculateExposure sales nexus cfg "Estimate").1.filter
        (fun r => decide (r.state = s))) :=
      List.mem_filter.mpr ⟨hr, by simp [hrs]⟩
    rw [hfilter, hchunk] at hrmem
    simp only at hrmem
    obtain ⟨e, _, rfl⟩ := List.mem_map.mp hrmem
    exact ⟨rfl, rfl, rfl, rfl, rfl, rfl, rfl, rfl⟩

/-- Witness for C6 on the exSalesPos run with a negative VDA interest
rate: the warning is recorded and the CA rows are zero-filled. -/
theorem C6_invalid_vda_zero_fill_witness :
    ("CA", 0) ∈ firstTriggers exNexusCA ∧
    exCfgVdaBad "CA" = some exPrmVdaBad ∧
    taxRateCheck "CA" exPrmVdaBad = Except.ok (7 / 100) ∧
    validateVda exPrmVdaBad = none ∧
    ((monthlyTaxable exSalesPos).filter (fun e =>
      decide (e.1 = "CA") && decide ((0 : Int) + 1 ≤ e.2.1))).isEmpty = false ∧
    ("Invalid VDA parameters for state CA in config." ++
      " Skipping VDA estimation for this state.") ∈
      (calculateExposure exSalesPos exNexusCA exCfgVdaBad "Estimate").2 := by
  have hf : ("CA", (0 : Int)) ∈ firstTriggers exNexusCA := by
    rw [exNexusCA_ft]; decide
  have hrows : ((monthlyTaxable exSalesPos).filter (fun e =>
      decide (e.1 = "CA") && decide ((0 : Int) + 1 ≤ e.2.1))).isEmpty = false := by
    rw [exSalesPos_monthly]; decide
  have happ := C6_invalid_vda_zero_fill exSalesPos exNexusCA exCfgVdaBad "CA" 0
    exPrmVdaBad (7 / 100) hf rfl exPrmVdaBad_tax exPrmVdaBad_vda hrows
  exact ⟨hf, rfl, exPrmVdaBad_tax, exPrmVdaBad_vda, hrows, happ.1⟩

/-- Witness for C7 on the exSalesPos run: the CA row at month 1 lies
strictly after the trigger month 0 and at the last data month. -/
theorem C7_exposure_window_witness :
    ("CA", 0) ∈ firstTriggers exNexusCA ∧
    exCfgExp "CA" = some exPrmExp ∧
    taxRateCheck "CA" exPrmExp = Except.ok (7 / 100) ∧
    ("CA", 1, (100 : Rat)) ∈ monthlyTaxable exSalesPos ∧
    (∀ r ∈ (calculateExposure exSalesPos exNexusCA exCfgExp "Estimate").1,
      ∀ t : Int, (r.state, t) ∈ firstTriggers exNexusCA →
      t < r.month_year ∧ r.month_year ≤ lastDataMonth exSalesPos) ∧
    (∃ r ∈ (calculateExposure exSalesPos exNexusCA exCfgExp "Estimate").1,
      r.state = "CA" ∧ r.month_year = 1) := by
  have hf : ("CA", (0 : Int)) ∈ firstTriggers exNexusCA := by
    rw [exNexusCA_ft]; decide
  have hmem : ("CA", (1 : Int), (100 : Rat)) ∈ monthlyTaxable exSalesPos := by
    rw [exSalesPos_monthly]; decide
  exact ⟨hf, rfl, exPrmExp_tax, hmem,
    (C7_exposure_window exSalesPos exNexusCA exCfgExp "Estimate").1,
    (C7_exposure_window exSalesPos exNexusCA exCfgExp "Estimate").2 "CA" 0
      exPrmExp (7 / 100) hf rfl exPrmExp_tax ("CA", 1, 100) hmem rfl
      (by decide)⟩

end SaltNexus
